import Mathlib

/-!
Verification of the 6502 emulator core (sokoide/6502-emulator).

The execution engine lives in `src/services/use6502Emulator.ts` (reset, step,
disassemble), the instruction semantics in `src/services/cpuInstructions.ts`
and the addressing modes in `src/services/cpuAddressingModes.ts`.  This file
is a shallow embedding of those functions: JavaScript numbers holding machine
words are modelled as `Nat` (with `Int` where the source can go negative),
`x & 0xFF` / `x & 0xFFFF` on non-negative values as `% 256` / `% 65536`, and
the `Uint8Array` memory as a total function whose cells hold bytes.
-/

/-- Source `MEMORY_SIZE` from `src/constants.ts`: 64KB address space. -/
def MEMORY_SIZE : Nat := 0x10000

/-- Source `DEFAULT_PROGRAM_LOAD_ADDRESS` from `src/constants.ts`. -/
def DEFAULT_PROGRAM_LOAD_ADDRESS : Nat := 0x0200

/-- Source `RESET_VECTOR_ADDRESS` from `src/constants.ts`. -/
def RESET_VECTOR_ADDRESS : Nat := 0xFFFC

/-- Source `STACK_BASE` from `src/constants.ts`. -/
def STACK_BASE : Nat := 0x0100

namespace Flag

/-- Carry flag bit (`Flag.C` in `src/types.ts`). -/
def C : Nat := 1

/-- Zero flag bit. -/
def Z : Nat := 2

/-- Interrupt-disable flag bit. -/
def I : Nat := 4

/-- Decimal-mode flag bit. -/
def D : Nat := 8

/-- Break flag bit. -/
def B : Nat := 16

/-- Unused (always 1) flag bit. -/
def U : Nat := 32

/-- Overflow flag bit. -/
def V : Nat := 64

/-- Negative flag bit. -/
def N : Nat := 128

end Flag

/-- Source `CPUState` from `src/types.ts`. -/
structure CPUState where
  A : Nat
  X : Nat
  Y : Nat
  PC : Nat
  SP : Nat
  P : Nat
  cycles : Nat
  halted : Bool
  deriving DecidableEq, Repr

/-- The 65536-byte `Uint8Array`, modelled as a total function from addresses
to cell contents. -/
def Mem : Type := Nat → Nat

/-- Reading `memory[a]`: a `Uint8Array` cell always holds a byte (values are
reduced mod 256 on storage, so the model reduces on read). -/
def rdByte (m : Mem) (a : Nat) : Nat := m a % 256

/-- Writing `memory[a] = v`: a `Uint8Array` silently ignores out-of-range
writes and truncates the stored value to a byte. -/
def wrByte (m : Mem) (a v : Nat) : Mem :=
  if a < MEMORY_SIZE then fun x => if x = a then v % 256 else m x else m

/-- JavaScript `x & 0xFF` where `x` may be a negative (32-bit) value. -/
def mask8i (x : Int) : Nat := (x % 256).toNat

/-- JavaScript `x & 0xFFFF` where `x` may be a negative (32-bit) value. -/
def mask16i (x : Int) : Nat := (x % 65536).toNat

/-- Truthiness of the JavaScript expression `cpu.P & flag`. -/
def flagOn (p f : Nat) : Bool := (p &&& f) != 0

/-- The recurring source pattern `P = cond ? (P | f) : (P & ~f)`; `~f` is the
32-bit complement of the flag mask. -/
def setIf (p : Nat) (b : Bool) (f : Nat) : Nat :=
  if b then p ||| f else p &&& (0xFFFFFFFF ^^^ f)

/-- Source `setZN` from `src/services/cpuInstructions.ts`. -/
def setZN (cpu : CPUState) (value : Nat) : CPUState :=
  let p := setIf cpu.P (value == 0) Flag.Z
  let p := setIf p ((value &&& 0x80) != 0) Flag.N
  { cpu with P := p }

/-- Source `setZNC` from `src/services/cpuInstructions.ts`. -/
def setZNC (cpu : CPUState) (value : Nat) (carry : Bool) : CPUState :=
  let cpu := setZN cpu value
  { cpu with P := setIf cpu.P carry Flag.C }

/-- Source `pushByte`: store at `STACK_BASE + SP`, then decrement SP with 8-bit wrap. -/
def pushByte (cpu : CPUState) (memory : Mem) (value : Nat) : CPUState × Mem :=
  ({ cpu with SP := mask8i ((cpu.SP : Int) - 1) }, wrByte memory (STACK_BASE + cpu.SP) value)

/-- Source `pullByte`: increment SP with 8-bit wrap, then read at `STACK_BASE + SP`. -/
def pullByte (cpu : CPUState) (memory : Mem) : CPUState × Nat :=
  let sp := (cpu.SP + 1) % 256
  ({ cpu with SP := sp }, rdByte memory (STACK_BASE + sp))

/-- Source `pushWord`: high byte first, then low byte. -/
def pushWord (cpu : CPUState) (memory : Mem) (value : Nat) : CPUState × Mem :=
  let r1 := pushByte cpu memory ((value >>> 8) % 256)
  pushByte r1.1 r1.2 (value % 256)

/-- Source `pullWord`: low byte first, then high byte, recombined little-endian. -/
def pullWord (cpu : CPUState) (memory : Mem) : CPUState × Nat :=
  let r1 := pullByte cpu memory
  let r2 := pullByte r1.1 memory
  (r2.1, (r2.2 <<< 8) ||| r1.2)

/-- Source `fetchByte` from `src/services/cpuAddressingModes.ts`: read the byte at PC
and advance PC (16-bit wrap). -/
def fetchByte (cpu : CPUState) (memory : Mem) : CPUState × Nat :=
  ({ cpu with PC := (cpu.PC + 1) % 65536 }, rdByte memory cpu.PC)

/-- Source `fetchWord`: two `fetchByte`s, recombined little-endian. -/
def fetchWord (cpu : CPUState) (memory : Mem) : CPUState × Nat :=
  let r1 := fetchByte cpu memory
  let r2 := fetchByte r1.1 memory
  (r2.1, (r2.2 <<< 8) ||| r1.2)

/-- The eleven named addressing modes of `src/services/cpuAddressingModes.ts`
(`AM.IMP` is the `null` sentinel and is represented as `Option.none` in the
instruction table). -/
inductive AddrMode
  | IMM | ZP | ZPX | ZPY | ABS | ABSX | ABSY | IND | IZX | IZY | REL
  deriving DecidableEq, Repr

/-- Dispatch on an addressing-mode function: returns the advanced CPU state,
the resolved `address` and the `pageCrossed` flag (`false` when the mode does
not report one).  `REL` returns the signed offset itself, hence the `Int`
address channel. -/
def resolveAM (m : AddrMode) (cpu : CPUState) (memory : Mem) : CPUState × Int × Bool :=
  match m with
  | .IMM => ({ cpu with PC := (cpu.PC + 1) % 65536 }, (cpu.PC : Int), false)
  | .ZP =>
      let r := fetchByte cpu memory
      (r.1, (r.2 : Int), false)
  | .ZPX =>
      let r := fetchByte cpu memory
      (r.1, (((r.2 + cpu.X) % 256 : Nat) : Int), false)
  | .ZPY =>
      let r := fetchByte cpu memory
      (r.1, (((r.2 + cpu.Y) % 256 : Nat) : Int), false)
  | .ABS =>
      let r := fetchWord cpu memory
      (r.1, (r.2 : Int), false)
  | .ABSX =>
      let r := fetchWord cpu memory
      let effectiveAddress := (r.2 + cpu.X) % 65536
      (r.1, (effectiveAddress : Int), (r.2 &&& 0xFF00) != (effectiveAddress &&& 0xFF00))
  | .ABSY =>
      let r := fetchWord cpu memory
      let effectiveAddress := (r.2 + cpu.Y) % 65536
      (r.1, (effectiveAddress : Int), (r.2 &&& 0xFF00) != (effectiveAddress &&& 0xFF00))
  | .IND =>
      let r := fetchWord cpu memory
      let pointer := r.2
      let effectiveAddress :=
        if pointer &&& 0x00FF == 0x00FF then
          rdByte memory pointer ||| (rdByte memory (pointer &&& 0xFF00) <<< 8)
        else
          rdByte memory pointer ||| (rdByte memory (pointer + 1) <<< 8)
      (r.1, (effectiveAddress : Int), false)
  | .IZX =>
      let r := fetchByte cpu memory
      let zpAddress := (r.2 + cpu.X) % 256
      let lowByte := rdByte memory zpAddress
      let highByte := rdByte memory ((zpAddress + 1) % 256)
      (r.1, (((highByte <<< 8) ||| lowByte : Nat) : Int), false)
  | .IZY =>
      let r := fetchByte cpu memory
      let zpAddress := r.2
      let base := rdByte memory zpAddress ||| (rdByte memory ((zpAddress + 1) % 256) <<< 8)
      let effectiveAddress := (base + cpu.Y) % 65536
      (r.1, (effectiveAddress : Int), (base &&& 0xFF00) != (effectiveAddress &&& 0xFF00))
  | .REL =>
      let r := fetchByte cpu memory
      (r.1, if r.2 > 127 then (r.2 : Int) - 256 else (r.2 : Int), false)

/-- Source `LDA`. -/
def LDA (cpu : CPUState) (memory : Mem) (address : Nat) : CPUState × Mem :=
  let a := rdByte memory address
  (setZN { cpu with A := a } a, memory)

/-- Source `LDX`. -/
def LDX (cpu : CPUState) (memory : Mem) (address : Nat) : CPUState × Mem :=
  let x := rdByte memory address
  (setZN { cpu with X := x } x, memory)

/-- Source `LDY`. -/
def LDY (cpu : CPUState) (memory : Mem) (address : Nat) : CPUState × Mem :=
  let y := rdByte memory address
  (setZN { cpu with Y := y } y, memory)

/-- Source `STA`: writes the accumulator to memory; the CPU state is untouched. -/
def STA (cpu : CPUState) (memory : Mem) (address : Nat) : CPUState × Mem :=
  (cpu, wrByte memory address cpu.A)

/-- Source `STX`. -/
def STX (cpu : CPUState) (memory : Mem) (address : Nat) : CPUState × Mem :=
  (cpu, wrByte memory address cpu.X)

/-- Source `STY`. -/
def STY (cpu : CPUState) (memory : Mem) (address : Nat) : CPUState × Mem :=
  (cpu, wrByte memory address cpu.Y)

/-- Source `ADC`: binary add with carry; overflow per the sign-mismatch formula. -/
def ADC (cpu : CPUState) (memory : Mem) (address : Nat) : CPUState × Mem :=
  let value := rdByte memory address
  let carry := if flagOn cpu.P Flag.C then 1 else 0
  let temp := cpu.A + value + carry
  let cpu1 := { cpu with
    P := setIf cpu.P
      ((((cpu.A ^^^ value) &&& 0x80) == 0) && (((cpu.A ^^^ temp) &&& 0x80) != 0)) Flag.V }
  let cpu2 := { cpu1 with A := temp % 256 }
  (setZNC cpu2 cpu2.A (decide (temp > 0xFF)), memory)

/-- Source `SBC`: add-with-carry against the complemented operand. -/
def SBC (cpu : CPUState) (memory : Mem) (address : Nat) : CPUState × Mem :=
  let value := rdByte memory address ^^^ 0xFF
  let carry := if flagOn cpu.P Flag.C then 1 else 0
  let temp := cpu.A + value + carry
  let cpu1 := { cpu with
    P := setIf cpu.P
      ((((cpu.A ^^^ value) &&& 0x80) == 0) && (((cpu.A ^^^ temp) &&& 0x80) != 0)) Flag.V }
  let cpu2 := { cpu1 with A := temp % 256 }
  (setZNC cpu2 cpu2.A (decide (temp > 0xFF)), memory)

/-- Source `genericBranch` from `src/services/cpuInstructions.ts`.  Note that the
source reads `memory[relativeOffsetAddress]` even though `AM.REL` already
returned the signed offset itself; a read outside the `Uint8Array` bounds
yields `undefined`, and `(PC + undefined) & 0xFFFF` evaluates to 0. -/
def genericBranch (cpu : CPUState) (memory : Mem) (relativeOffsetAddress : Int)
    (condition : Bool) : CPUState :=
  if condition then
    let relativeOffset : Option Nat :=
      if 0 ≤ relativeOffsetAddress ∧ relativeOffsetAddress < 65536 then
        some (rdByte memory relativeOffsetAddress.toNat)
      else none
    let oldPC := cpu.PC
    let newPC :=
      match relativeOffset with
      | some v => (cpu.PC + v) % 65536
      | none => 0
    let cpu1 := { cpu with PC := newPC, cycles := cpu.cycles + 1 }
    if (oldPC &&& 0xFF00) != (newPC &&& 0xFF00) then
      { cpu1 with cycles := cpu1.cycles + 1 }
    else cpu1
  else cpu

/-- Source `BEQ`. -/
def BEQ (cpu : CPUState) (memory : Mem) (address : Int) : CPUState × Mem :=
  (genericBranch cpu memory address ((cpu.P &&& Flag.Z) != 0), memory)

/-- Source `BNE`. -/
def BNE (cpu : CPUState) (memory : Mem) (address : Int) : CPUState × Mem :=
  (genericBranch cpu memory address ((cpu.P &&& Flag.Z) == 0), memory)

/-- Source `BCS`. -/
def BCS (cpu : CPUState) (memory : Mem) (address : Int) : CPUState × Mem :=
  (genericBranch cpu memory address ((cpu.P &&& Flag.C) != 0), memory)

/-- Source `BCC`. -/
def BCC (cpu : CPUState) (memory : Mem) (address : Int) : CPUState × Mem :=
  (genericBranch cpu memory address ((cpu.P &&& Flag.C) == 0), memory)

/-- Source `BMI`. -/
def BMI (cpu : CPUState) (memory : Mem) (address : Int) : CPUState × Mem :=
  (genericBranch cpu memory address ((cpu.P &&& Flag.N) != 0), memory)

/-- Source `BPL`. -/
def BPL (cpu : CPUState) (memory : Mem) (address : Int) : CPUState × Mem :=
  (genericBranch cpu memory address ((cpu.P &&& Flag.N) == 0), memory)

/-- Source `BVS`. -/
def BVS (cpu : CPUState) (memory : Mem) (address : Int) : CPUState × Mem :=
  (genericBranch cpu memory address ((cpu.P &&& Flag.V) != 0), memory)

/-- Source `BVC`. -/
def BVC (cpu : CPUState) (memory : Mem) (address : Int) : CPUState × Mem :=
  (genericBranch cpu memory address ((cpu.P &&& Flag.V) == 0), memory)

/-- Source `JMP`. -/
def JMP (cpu : CPUState) (memory : Mem) (address : Nat) : CPUState × Mem :=
  ({ cpu with PC := address }, memory)

/-- Source `JSR`: push `(PC - 1) & 0xFFFF` as a word, then jump. -/
def JSR (cpu : CPUState) (memory : Mem) (address : Nat) : CPUState × Mem :=
  let r := pushWord cpu memory (mask16i ((cpu.PC : Int) - 1))
  ({ r.1 with PC := address }, r.2)

/-- Source `RTS`: pull a word and set PC to it plus 1 (16-bit wrap). -/
def RTS (cpu : CPUState) (memory : Mem) (_address : Nat) : CPUState × Mem :=
  let r := pullWord cpu memory
  ({ r.1 with PC := (r.2 + 1) % 65536 }, memory)

/-- Source `RTI`: pull P (Break not restored, Unused forced), then pull PC. -/
def RTI (cpu : CPUState) (memory : Mem) (_address : Nat) : CPUState × Mem :=
  let r := pullByte cpu memory
  let cpu1 := { r.1 with P := (r.2 &&& (0xFFFFFFFF ^^^ Flag.B)) ||| Flag.U }
  let r2 := pullWord cpu1 memory
  ({ r2.1 with PC := r2.2 }, memory)

/-- Source `INC`. -/
def INC (cpu : CPUState) (memory : Mem) (address : Nat) : CPUState × Mem :=
  let value := (rdByte memory address + 1) % 256
  (setZN cpu value, wrByte memory address value)

/-- Source `INX`. -/
def INX (cpu : CPUState) (memory : Mem) (_address : Nat) : CPUState × Mem :=
  let x := (cpu.X + 1) % 256
  (setZN { cpu with X := x } x, memory)

/-- Source `INY`. -/
def INY (cpu : CPUState) (memory : Mem) (_address : Nat) : CPUState × Mem :=
  let y := (cpu.Y + 1) % 256
  (setZN { cpu with Y := y } y, memory)

/-- Source `DEC`. -/
def DEC (cpu : CPUState) (memory : Mem) (address : Nat) : CPUState × Mem :=
  let value := mask8i ((rdByte memory address : Int) - 1)
  (setZN cpu value, wrByte memory address value)

/-- Source `DEX`. -/
def DEX (cpu : CPUState) (memory : Mem) (_address : Nat) : CPUState × Mem :=
  let x := mask8i ((cpu.X : Int) - 1)
  (setZN { cpu with X := x } x, memory)

/-- Source `DEY`. -/
def DEY (cpu : CPUState) (memory : Mem) (_address : Nat) : CPUState × Mem :=
  let y := mask8i ((cpu.Y : Int) - 1)
  (setZN { cpu with Y := y } y, memory)

/-- Source `CMP`. -/
def CMP (cpu : CPUState) (memory : Mem) (address : Nat) : CPUState × Mem :=
  let value := rdByte memory address
  let result := mask8i ((cpu.A : Int) - value)
  let cpu1 := setZN cpu result
  ({ cpu1 with P := setIf cpu1.P (decide (cpu.A ≥ value)) Flag.C }, memory)

/-- Source `CPX`. -/
def CPX (cpu : CPUState) (memory : Mem) (address : Nat) : CPUState × Mem :=
  let value := rdByte memory address
  let result := mask8i ((cpu.X : Int) - value)
  let cpu1 := setZN cpu result
  ({ cpu1 with P := setIf cpu1.P (decide (cpu.X ≥ value)) Flag.C }, memory)

/-- Source `CPY`. -/
def CPY (cpu : CPUState) (memory : Mem) (address : Nat) : CPUState × Mem :=
  let value := rdByte memory address
  let result := mask8i ((cpu.Y : Int) - value)
  let cpu1 := setZN cpu result
  ({ cpu1 with P := setIf cpu1.P (decide (cpu.Y ≥ value)) Flag.C }, memory)

/-- Source `AND`. -/
def AND (cpu : CPUState) (memory : Mem) (address : Nat) : CPUState × Mem :=
  let a := cpu.A &&& rdByte memory address
  (setZN { cpu with A := a } a, memory)

/-- Source `ORA`. -/
def ORA (cpu : CPUState) (memory : Mem) (address : Nat) : CPUState × Mem :=
  let a := cpu.A ||| rdByte memory address
  (setZN { cpu with A := a } a, memory)

/-- Source `EOR`. -/
def EOR (cpu : CPUState) (memory : Mem) (address : Nat) : CPUState × Mem :=
  let a := cpu.A ^^^ rdByte memory address
  (setZN { cpu with A := a } a, memory)

/-- Source `BIT`: Z from the AND, N and V copied from operand bits 7 and 6. -/
def BIT (cpu : CPUState) (memory : Mem) (address : Nat) : CPUState × Mem :=
  let value := rdByte memory address
  let p := setIf cpu.P ((value &&& cpu.A) == 0) Flag.Z
  let p := setIf p ((value &&& Flag.N) != 0) Flag.N
  let p := setIf p ((value &&& Flag.V) != 0) Flag.V
  ({ cpu with P := p }, memory)

/-- Source `ASL` on the accumulator. -/
def ASL_A (cpu : CPUState) (memory : Mem) (_address : Nat) : CPUState × Mem :=
  let carry := (cpu.A &&& 0x80) != 0
  let a := (cpu.A <<< 1) % 256
  (setZNC { cpu with A := a } a carry, memory)

/-- Source `ASL` on memory. -/
def ASL_M (cpu : CPUState) (memory : Mem) (address : Nat) : CPUState × Mem :=
  let value := rdByte memory address
  let carry := (value &&& 0x80) != 0
  let memory1 := wrByte memory address ((value <<< 1) % 256)
  (setZNC cpu (rdByte memory1 address) carry, memory1)

/-- Source `LSR` on the accumulator. -/
def LSR_A (cpu : CPUState) (memory : Mem) (_address : Nat) : CPUState × Mem :=
  let carry := (cpu.A &&& 0x01) != 0
  let a := cpu.A >>> 1
  (setZNC { cpu with A := a } a carry, memory)

/-- Source `LSR` on memory. -/
def LSR_M (cpu : CPUState) (memory : Mem) (address : Nat) : CPUState × Mem :=
  let value := rdByte memory address
  let carry := (value &&& 0x01) != 0
  let memory1 := wrByte memory address (value >>> 1)
  (setZNC cpu (rdByte memory1 address) carry, memory1)

/-- Source `ROL` on the accumulator. -/
def ROL_A (cpu : CPUState) (memory : Mem) (_address : Nat) : CPUState × Mem :=
  let oldCarry := if flagOn cpu.P Flag.C then 1 else 0
  let newCarry := (cpu.A &&& 0x80) != 0
  let a := ((cpu.A <<< 1) ||| oldCarry) % 256
  (setZNC { cpu with A := a } a newCarry, memory)

/-- Source `ROL` on memory. -/
def ROL_M (cpu : CPUState) (memory : Mem) (address : Nat) : CPUState × Mem :=
  let value := rdByte memory address
  let oldCarry := if flagOn cpu.P Flag.C then 1 else 0
  let newCarry := (value &&& 0x80) != 0
  let memory1 := wrByte memory address (((value <<< 1) ||| oldCarry) % 256)
  (setZNC cpu (rdByte memory1 address) newCarry, memory1)

/-- Source `ROR` on the accumulator. -/
def ROR_A (cpu : CPUState) (memory : Mem) (_address : Nat) : CPUState × Mem :=
  let oldCarry := if flagOn cpu.P Flag.C then 0x80 else 0
  let newCarry := (cpu.A &&& 0x01) != 0
  let a := (cpu.A >>> 1) ||| oldCarry
  (setZNC { cpu with A := a } a newCarry, memory)

/-- Source `ROR` on memory. -/
def ROR_M (cpu : CPUState) (memory : Mem) (address : Nat) : CPUState × Mem :=
  let value := rdByte memory address
  let oldCarry := if flagOn cpu.P Flag.C then 0x80 else 0
  let newCarry := (value &&& 0x01) != 0
  let memory1 := wrByte memory address ((value >>> 1) ||| oldCarry)
  (setZNC cpu (rdByte memory1 address) newCarry, memory1)

/-- Source `PHA`. -/
def PHA (cpu : CPUState) (memory : Mem) (_address : Nat) : CPUState × Mem :=
  pushByte cpu memory cpu.A

/-- Source `PHP`: pushes P with the Break and Unused bits forced set. -/
def PHP (cpu : CPUState) (memory : Mem) (_address : Nat) : CPUState × Mem :=
  pushByte cpu memory (cpu.P ||| Flag.B ||| Flag.U)

/-- Source `PLA`. -/
def PLA (cpu : CPUState) (memory : Mem) (_address : Nat) : CPUState × Mem :=
  let r := pullByte cpu memory
  (setZN { r.1 with A := r.2 } r.2, memory)

/-- Source `PLP`: Break not restored, Unused always set. -/
def PLP (cpu : CPUState) (memory : Mem) (_address : Nat) : CPUState × Mem :=
  let r := pullByte cpu memory
  ({ r.1 with P := (r.2 &&& (0xFFFFFFFF ^^^ Flag.B)) ||| Flag.U }, memory)

/-- Source `TAX`. -/
def TAX (cpu : CPUState) (memory : Mem) (_address : Nat) : CPUState × Mem :=
  (setZN { cpu with X := cpu.A } cpu.A, memory)

/-- Source `TXA`. -/
def TXA (cpu : CPUState) (memory : Mem) (_address : Nat) : CPUState × Mem :=
  (setZN { cpu with A := cpu.X } cpu.X, memory)

/-- Source `TAY`. -/
def TAY (cpu : CPUState) (memory : Mem) (_address : Nat) : CPUState × Mem :=
  (setZN { cpu with Y := cpu.A } cpu.A, memory)

/-- Source `TYA`. -/
def TYA (cpu : CPUState) (memory : Mem) (_address : Nat) : CPUState × Mem :=
  (setZN { cpu with A := cpu.Y } cpu.Y, memory)

/-- Source `TSX`. -/
def TSX (cpu : CPUState) (memory : Mem) (_address : Nat) : CPUState × Mem :=
  (setZN { cpu with X := cpu.SP } cpu.SP, memory)

/-- Source `TXS`: no flags are updated. -/
def TXS (cpu : CPUState) (memory : Mem) (_address : Nat) : CPUState × Mem :=
  ({ cpu with SP := cpu.X }, memory)

/-- Source `CLC`. -/
def CLC (cpu : CPUState) (memory : Mem) (_address : Nat) : CPUState × Mem :=
  ({ cpu with P := cpu.P &&& (0xFFFFFFFF ^^^ Flag.C) }, memory)

/-- Source `SEC`. -/
def SEC (cpu : CPUState) (memory : Mem) (_address : Nat) : CPUState × Mem :=
  ({ cpu with P := cpu.P ||| Flag.C }, memory)

/-- Source `CLI`. -/
def CLI (cpu : CPUState) (memory : Mem) (_address : Nat) : CPUState × Mem :=
  ({ cpu with P := cpu.P &&& (0xFFFFFFFF ^^^ Flag.I) }, memory)

/-- Source `SEI`. -/
def SEI (cpu : CPUState) (memory : Mem) (_address : Nat) : CPUState × Mem :=
  ({ cpu with P := cpu.P ||| Flag.I }, memory)

/-- Source `CLD`. -/
def CLD (cpu : CPUState) (memory : Mem) (_address : Nat) : CPUState × Mem :=
  ({ cpu with P := cpu.P &&& (0xFFFFFFFF ^^^ Flag.D) }, memory)

/-- Source `SED`. -/
def SED (cpu : CPUState) (memory : Mem) (_address : Nat) : CPUState × Mem :=
  ({ cpu with P := cpu.P ||| Flag.D }, memory)

/-- Source `CLV`. -/
def CLV (cpu : CPUState) (memory : Mem) (_address : Nat) : CPUState × Mem :=
  ({ cpu with P := cpu.P &&& (0xFFFFFFFF ^^^ Flag.V) }, memory)

/-- Source `NOP`. -/
def NOP (cpu : CPUState) (memory : Mem) (_address : Nat) : CPUState × Mem :=
  (cpu, memory)

/-- Source `BRK`: consume the padding byte, push PC and P (Break and Unused forced),
set Interrupt-Disable, and halt instead of vectoring. -/
def BRK (cpu : CPUState) (memory : Mem) (_address : Nat) : CPUState × Mem :=
  let f := fetchByte cpu memory
  let r := pushWord f.1 memory f.1.PC
  let r2 := pushByte r.1 r.2 (r.1.P ||| Flag.B ||| Flag.U)
  let cpu1 := { r2.1 with P := r2.1.P ||| Flag.I }
  ({ cpu1 with halted := true }, r2.2)

/-- One tag per distinct `ExecuteFunc` constant of
`src/services/cpuInstructions.ts`. -/
inductive ExecuteFunc
  | LDA | LDX | LDY | STA | STX | STY | ADC | SBC
  | BEQ | BNE | BCS | BCC | BMI | BPL | BVS | BVC
  | JMP | JSR | RTS | RTI
  | INC | INX | INY | DEC | DEX | DEY
  | CMP | CPX | CPY
  | AND | ORA | EOR | BIT
  | ASL_A | ASL_M | LSR_A | LSR_M | ROL_A | ROL_M | ROR_A | ROR_M
  | PHA | PHP | PLA | PLP
  | TAX | TXA | TAY | TYA | TSX | TXS
  | CLC | SEC | CLI | SEI | CLD | SED | CLV
  | NOP | BRK
  deriving DecidableEq, Repr

/-- Apply an execute function.  Branch effects receive the signed offset from
`AM.REL` unchanged; every other effect only ever sees a non-negative resolved
address, converted back to `Nat`. -/
def runExec (e : ExecuteFunc) (cpu : CPUState) (memory : Mem) (address : Int) :
    CPUState × Mem :=
  match e with
  | .LDA => LDA cpu memory address.toNat
  | .LDX => LDX cpu memory address.toNat
  | .LDY => LDY cpu memory address.toNat
  | .STA => STA cpu memory address.toNat
  | .STX => STX cpu memory address.toNat
  | .STY => STY cpu memory address.toNat
  | .ADC => ADC cpu memory address.toNat
  | .SBC => SBC cpu memory address.toNat
  | .BEQ => BEQ cpu memory address
  | .BNE => BNE cpu memory address
  | .BCS => BCS cpu memory address
  | .BCC => BCC cpu memory address
  | .BMI => BMI cpu memory address
  | .BPL => BPL cpu memory address
  | .BVS => BVS cpu memory address
  | .BVC => BVC cpu memory address
  | .JMP => JMP cpu memory address.toNat
  | .JSR => JSR cpu memory address.toNat
  | .RTS => RTS cpu memory address.toNat
  | .RTI => RTI cpu memory address.toNat
  | .INC => INC cpu memory address.toNat
  | .INX => INX cpu memory address.toNat
  | .INY => INY cpu memory address.toNat
  | .DEC => DEC cpu memory address.toNat
  | .DEX => DEX cpu memory address.toNat
  | .DEY => DEY cpu memory address.toNat
  | .CMP => CMP cpu memory address.toNat
  | .CPX => CPX cpu memory address.toNat
  | .CPY => CPY cpu memory address.toNat
  | .AND => AND cpu memory address.toNat
  | .ORA => ORA cpu memory address.toNat
  | .EOR => EOR cpu memory address.toNat
  | .BIT => BIT cpu memory address.toNat
  | .ASL_A => ASL_A cpu memory address.toNat
  | .ASL_M => ASL_M cpu memory address.toNat
  | .LSR_A => LSR_A cpu memory address.toNat
  | .LSR_M => LSR_M cpu memory address.toNat
  | .ROL_A => ROL_A cpu memory address.toNat
  | .ROL_M => ROL_M cpu memory address.toNat
  | .ROR_A => ROR_A cpu memory address.toNat
  | .ROR_M => ROR_M cpu memory address.toNat
  | .PHA => PHA cpu memory address.toNat
  | .PHP => PHP cpu memory address.toNat
  | .PLA => PLA cpu memory address.toNat
  | .PLP => PLP cpu memory address.toNat
  | .TAX => TAX cpu memory address.toNat
  | .TXA => TXA cpu memory address.toNat
  | .TAY => TAY cpu memory address.toNat
  | .TYA => TYA cpu memory address.toNat
  | .TSX => TSX cpu memory address.toNat
  | .TXS => TXS cpu memory address.toNat
  | .CLC => CLC cpu memory address.toNat
  | .SEC => SEC cpu memory address.toNat
  | .CLI => CLI cpu memory address.toNat
  | .SEI => SEI cpu memory address.toNat
  | .CLD => CLD cpu memory address.toNat
  | .SED => SED cpu memory address.toNat
  | .CLV => CLV cpu memory address.toNat
  | .NOP => NOP cpu memory address.toNat
  | .BRK => BRK cpu memory address.toNat

/-- Source `InstructionDefinition` from `src/types.ts`. -/
structure InstructionDefinition where
  opCode : Nat
  mnemonic : String
  addressingMode : Option AddrMode
  execute : ExecuteFunc
  bytes : Nat
  baseCycles : Nat
  pageCrossCycle : Bool
  branchCycle : Bool
  deriving DecidableEq, Repr

/-- The instruction table built by the `define(...)` calls in
`src/services/cpuInstructions.ts`, as the lookup `instructionSet.get(opCode)`.
Entries appear in the order of the source's `define` calls. -/
def getInstructionDefinition (opCode : Nat) : Option InstructionDefinition :=
  match opCode with
  | 0xA9 => some ⟨0xA9, "LDA", some .IMM, .LDA, 2, 2, false, false⟩
  | 0xA5 => some ⟨0xA5, "LDA", some .ZP, .LDA, 2, 3, false, false⟩
  | 0xB5 => some ⟨0xB5, "LDA", some .ZPX, .LDA, 2, 4, false, false⟩
  | 0xAD => some ⟨0xAD, "LDA", some .ABS, .LDA, 3, 4, false, false⟩
  | 0xBD => some ⟨0xBD, "LDA", some .ABSX, .LDA, 3, 4, true, false⟩
  | 0xB9 => some ⟨0xB9, "LDA", some .ABSY, .LDA, 3, 4, true, false⟩
  | 0xA1 => some ⟨0xA1, "LDA", some .IZX, .LDA, 2, 6, false, false⟩
  | 0xB1 => some ⟨0xB1, "LDA", some .IZY, .LDA, 2, 5, true, false⟩
  | 0xA2 => some ⟨0xA2, "LDX", some .IMM, .LDX, 2, 2, false, false⟩
  | 0xA6 => some ⟨0xA6, "LDX", some .ZP, .LDX, 2, 3, false, false⟩
  | 0xB6 => some ⟨0xB6, "LDX", some .ZPY, .LDX, 2, 4, false, false⟩
  | 0xAE => some ⟨0xAE, "LDX", some .ABS, .LDX, 3, 4, false, false⟩
  | 0xBE => some ⟨0xBE, "LDX", some .ABSY, .LDX, 3, 4, true, false⟩
  | 0xA0 => some ⟨0xA0, "LDY", some .IMM, .LDY, 2, 2, false, false⟩
  | 0xA4 => some ⟨0xA4, "LDY", some .ZP, .LDY, 2, 3, false, false⟩
  | 0xB4 => some ⟨0xB4, "LDY", some .ZPX, .LDY, 2, 4, false, false⟩
  | 0xAC => some ⟨0xAC, "LDY", some .ABS, .LDY, 3, 4, false, false⟩
  | 0xBC => some ⟨0xBC, "LDY", some .ABSX, .LDY, 3, 4, true, false⟩
  | 0x85 => some ⟨0x85, "STA", some .ZP, .STA, 2, 3, false, false⟩
  | 0x95 => some ⟨0x95, "STA", some .ZPX, .STA, 2, 4, false, false⟩
  | 0x8D => some ⟨0x8D, "STA", some .ABS, .STA, 3, 4, false, false⟩
  | 0x9D => some ⟨0x9D, "STA", some .ABSX, .STA, 3, 5, false, false⟩
  | 0x99 => some ⟨0x99, "STA", some .ABSY, .STA, 3, 5, false, false⟩
  | 0x81 => some ⟨0x81, "STA", some .IZX, .STA, 2, 6, false, false⟩
  | 0x91 => some ⟨0x91, "STA", some .IZY, .STA, 2, 6, false, false⟩
  | 0x86 => some ⟨0x86, "STX", some .ZP, .STX, 2, 3, false, false⟩
  | 0x96 => some ⟨0x96, "STX", some .ZPY, .STX, 2, 4, false, false⟩
  | 0x8E => some ⟨0x8E, "STX", some .ABS, .STX, 3, 4, false, false⟩
  | 0x84 => some ⟨0x84, "STY", some .ZP, .STY, 2, 3, false, false⟩
  | 0x94 => some ⟨0x94, "STY", some .ZPX, .STY, 2, 4, false, false⟩
  | 0x8C => some ⟨0x8C, "STY", some .ABS, .STY, 3, 4, false, false⟩
  | 0x69 => some ⟨0x69, "ADC", some .IMM, .ADC, 2, 2, false, false⟩
  | 0x65 => some ⟨0x65, "ADC", some .ZP, .ADC, 2, 3, false, false⟩
  | 0x75 => some ⟨0x75, "ADC", some .ZPX, .ADC, 2, 4, false, false⟩
  | 0x6D => some ⟨0x6D, "ADC", some .ABS, .ADC, 3, 4, false, false⟩
  | 0x7D => some ⟨0x7D, "ADC", some .ABSX, .ADC, 3, 4, true, false⟩
  | 0x79 => some ⟨0x79, "ADC", some .ABSY, .ADC, 3, 4, true, false⟩
  | 0x61 => some ⟨0x61, "ADC", some .IZX, .ADC, 2, 6, false, false⟩
  | 0x71 => some ⟨0x71, "ADC", some .IZY, .ADC, 2, 5, true, false⟩
  | 0xE9 => some ⟨0xE9, "SBC", some .IMM, .SBC, 2, 2, false, false⟩
  | 0xE5 => some ⟨0xE5, "SBC", some .ZP, .SBC, 2, 3, false, false⟩
  | 0xF5 => some ⟨0xF5, "SBC", some .ZPX, .SBC, 2, 4, false, false⟩
  | 0xED => some ⟨0xED, "SBC", some .ABS, .SBC, 3, 4, false, false⟩
  | 0xFD => some ⟨0xFD, "SBC", some .ABSX, .SBC, 3, 4, true, false⟩
  | 0xF9 => some ⟨0xF9, "SBC", some .ABSY, .SBC, 3, 4, true, false⟩
  | 0xE1 => some ⟨0xE1, "SBC", some .IZX, .SBC, 2, 6, false, false⟩
  | 0xF1 => some ⟨0xF1, "SBC", some .IZY, .SBC, 2, 5, true, false⟩
  | 0x90 => some ⟨0x90, "BCC", some .REL, .BCC, 2, 2, false, true⟩
  | 0xB0 => some ⟨0xB0, "BCS", some .REL, .BCS, 2, 2, false, true⟩
  | 0xF0 => some ⟨0xF0, "BEQ", some .REL, .BEQ, 2, 2, false, true⟩
  | 0xD0 => some ⟨0xD0, "BNE", some .REL, .BNE, 2, 2, false, true⟩
  | 0x30 => some ⟨0x30, "BMI", some .REL, .BMI, 2, 2, false, true⟩
  | 0x10 => some ⟨0x10, "BPL", some .REL, .BPL, 2, 2, false, true⟩
  | 0x50 => some ⟨0x50, "BVC", some .REL, .BVC, 2, 2, false, true⟩
  | 0x70 => some ⟨0x70, "BVS", some .REL, .BVS, 2, 2, false, true⟩
  | 0x4C => some ⟨0x4C, "JMP", some .ABS, .JMP, 3, 3, false, false⟩
  | 0x6C => some ⟨0x6C, "JMP", some .IND, .JMP, 3, 5, false, false⟩
  | 0x20 => some ⟨0x20, "JSR", some .ABS, .JSR, 3, 6, false, false⟩
  | 0x60 => some ⟨0x60, "RTS", none, .RTS, 1, 6, false, false⟩
  | 0x40 => some ⟨0x40, "RTI", none, .RTI, 1, 6, false, false⟩
  | 0xE6 => some ⟨0xE6, "INC", some .ZP, .INC, 2, 5, false, false⟩
  | 0xF6 => some ⟨0xF6, "INC", some .ZPX, .INC, 2, 6, false, false⟩
  | 0xEE => some ⟨0xEE, "INC", some .ABS, .INC, 3, 6, false, false⟩
  | 0xFE => some ⟨0xFE, "INC", some .ABSX, .INC, 3, 7, false, false⟩
  | 0xC6 => some ⟨0xC6, "DEC", some .ZP, .DEC, 2, 5, false, false⟩
  | 0xD6 => some ⟨0xD6, "DEC", some .ZPX, .DEC, 2, 6, false, false⟩
  | 0xCE => some ⟨0xCE, "DEC", some .ABS, .DEC, 3, 6, false, false⟩
  | 0xDE => some ⟨0xDE, "DEC", some .ABSX, .DEC, 3, 7, false, false⟩
  | 0xE8 => some ⟨0xE8, "INX", none, .INX, 1, 2, false, false⟩
  | 0xC8 => some ⟨0xC8, "INY", none, .INY, 1, 2, false, false⟩
  | 0xCA => some ⟨0xCA, "DEX", none, .DEX, 1, 2, false, false⟩
  | 0x88 => some ⟨0x88, "DEY", none, .DEY, 1, 2, false, false⟩
  | 0xC9 => some ⟨0xC9, "CMP", some .IMM, .CMP, 2, 2, false, false⟩
  | 0xC5 => some ⟨0xC5, "CMP", some .ZP, .CMP, 2, 3, false, false⟩
  | 0xD5 => some ⟨0xD5, "CMP", some .ZPX, .CMP, 2, 4, false, false⟩
  | 0xCD => some ⟨0xCD, "CMP", some .ABS, .CMP, 3, 4, false, false⟩
  | 0xDD => some ⟨0xDD, "CMP", some .ABSX, .CMP, 3, 4, true, false⟩
  | 0xD9 => some ⟨0xD9, "CMP", some .ABSY, .CMP, 3, 4, true, false⟩
  | 0xC1 => some ⟨0xC1, "CMP", some .IZX, .CMP, 2, 6, false, false⟩
  | 0xD1 => some ⟨0xD1, "CMP", some .IZY, .CMP, 2, 5, true, false⟩
  | 0xE0 => some ⟨0xE0, "CPX", some .IMM, .CPX, 2, 2, false, false⟩
  | 0xE4 => some ⟨0xE4, "CPX", some .ZP, .CPX, 2, 3, false, false⟩
  | 0xEC => some ⟨0xEC, "CPX", some .ABS, .CPX, 3, 4, false, false⟩
  | 0xC0 => some ⟨0xC0, "CPY", some .IMM, .CPY, 2, 2, false, false⟩
  | 0xC4 => some ⟨0xC4, "CPY", some .ZP, .CPY, 2, 3, false, false⟩
  | 0xCC => some ⟨0xCC, "CPY", some .ABS, .CPY, 3, 4, false, false⟩
  | 0x29 => some ⟨0x29, "AND", some .IMM, .AND, 2, 2, false, false⟩
  | 0x25 => some ⟨0x25, "AND", some .ZP, .AND, 2, 3, false, false⟩
  | 0x35 => some ⟨0x35, "AND", some .ZPX, .AND, 2, 4, false, false⟩
  | 0x2D => some ⟨0x2D, "AND", some .ABS, .AND, 3, 4, false, false⟩
  | 0x3D => some ⟨0x3D, "AND", some .ABSX, .AND, 3, 4, true, false⟩
  | 0x39 => some ⟨0x39, "AND", some .ABSY, .AND, 3, 4, true, false⟩
  | 0x21 => some ⟨0x21, "AND", some .IZX, .AND, 2, 6, false, false⟩
  | 0x31 => some ⟨0x31, "AND", some .IZY, .AND, 2, 5, true, false⟩
  | 0x09 => some ⟨0x09, "ORA", some .IMM, .ORA, 2, 2, false, false⟩
  | 0x05 => some ⟨0x05, "ORA", some .ZP, .ORA, 2, 3, false, false⟩
  | 0x15 => some ⟨0x15, "ORA", some .ZPX, .ORA, 2, 4, false, false⟩
  | 0x0D => some ⟨0x0D, "ORA", some .ABS, .ORA, 3, 4, false, false⟩
  | 0x1D => some ⟨0x1D, "ORA", some .ABSX, .ORA, 3, 4, true, false⟩
  | 0x19 => some ⟨0x19, "ORA", some .ABSY, .ORA, 3, 4, true, false⟩
  | 0x01 => some ⟨0x01, "ORA", some .IZX, .ORA, 2, 6, false, false⟩
  | 0x11 => some ⟨0x11, "ORA", some .IZY, .ORA, 2, 5, true, false⟩
  | 0x49 => some ⟨0x49, "EOR", some .IMM, .EOR, 2, 2, false, false⟩
  | 0x45 => some ⟨0x45, "EOR", some .ZP, .EOR, 2, 3, false, false⟩
  | 0x55 => some ⟨0x55, "EOR", some .ZPX, .EOR, 2, 4, false, false⟩
  | 0x4D => some ⟨0x4D, "EOR", some .ABS, .EOR, 3, 4, false, false⟩
  | 0x5D => some ⟨0x5D, "EOR", some .ABSX, .EOR, 3, 4, true, false⟩
  | 0x59 => some ⟨0x59, "EOR", some .ABSY, .EOR, 3, 4, true, false⟩
  | 0x41 => some ⟨0x41, "EOR", some .IZX, .EOR, 2, 6, false, false⟩
  | 0x51 => some ⟨0x51, "EOR", some .IZY, .EOR, 2, 5, true, false⟩
  | 0x24 => some ⟨0x24, "BIT", some .ZP, .BIT, 2, 3, false, false⟩
  | 0x2C => some ⟨0x2C, "BIT", some .ABS, .BIT, 3, 4, false, false⟩
  | 0x0A => some ⟨0x0A, "ASL", none, .ASL_A, 1, 2, false, false⟩
  | 0x06 => some ⟨0x06, "ASL", some .ZP, .ASL_M, 2, 5, false, false⟩
  | 0x16 => some ⟨0x16, "ASL", some .ZPX, .ASL_M, 2, 6, false, false⟩
  | 0x0E => some ⟨0x0E, "ASL", some .ABS, .ASL_M, 3, 6, false, false⟩
  | 0x1E => some ⟨0x1E, "ASL", some .ABSX, .ASL_M, 3, 7, false, false⟩
  | 0x4A => some ⟨0x4A, "LSR", none, .LSR_A, 1, 2, false, false⟩
  | 0x46 => some ⟨0x46, "LSR", some .ZP, .LSR_M, 2, 5, false, false⟩
  | 0x56 => some ⟨0x56, "LSR", some .ZPX, .LSR_M, 2, 6, false, false⟩
  | 0x4E => some ⟨0x4E, "LSR", some .ABS, .LSR_M, 3, 6, false, false⟩
  | 0x5E => some ⟨0x5E, "LSR", some .ABSX, .LSR_M, 3, 7, false, false⟩
  | 0x2A => some ⟨0x2A, "ROL", none, .ROL_A, 1, 2, false, false⟩
  | 0x26 => some ⟨0x26, "ROL", some .ZP, .ROL_M, 2, 5, false, false⟩
  | 0x36 => some ⟨0x36, "ROL", some .ZPX, .ROL_M, 2, 6, false, false⟩
  | 0x2E => some ⟨0x2E, "ROL", some .ABS, .ROL_M, 3, 6, false, false⟩
  | 0x3E => some ⟨0x3E, "ROL", some .ABSX, .ROL_M, 3, 7, false, false⟩
  | 0x6A => some ⟨0x6A, "ROR", none, .ROR_A, 1, 2, false, false⟩
  | 0x66 => some ⟨0x66, "ROR", some .ZP, .ROR_M, 2, 5, false, false⟩
  | 0x76 => some ⟨0x76, "ROR", some .ZPX, .ROR_M, 2, 6, false, false⟩
  | 0x6E => some ⟨0x6E, "ROR", some .ABS, .ROR_M, 3, 6, false, false⟩
  | 0x7E => some ⟨0x7E, "ROR", some .ABSX, .ROR_M, 3, 7, false, false⟩
  | 0x48 => some ⟨0x48, "PHA", none, .PHA, 1, 3, false, false⟩
  | 0x08 => some ⟨0x08, "PHP", none, .PHP, 1, 3, false, false⟩
  | 0x68 => some ⟨0x68, "PLA", none, .PLA, 1, 4, false, false⟩
  | 0x28 => some ⟨0x28, "PLP", none, .PLP, 1, 4, false, false⟩
  | 0xAA => some ⟨0xAA, "TAX", none, .TAX, 1, 2, false, false⟩
  | 0x8A => some ⟨0x8A, "TXA", none, .TXA, 1, 2, false, false⟩
  | 0xA8 => some ⟨0xA8, "TAY", none, .TAY, 1, 2, false, false⟩
  | 0x98 => some ⟨0x98, "TYA", none, .TYA, 1, 2, false, false⟩
  | 0xBA => some ⟨0xBA, "TSX", none, .TSX, 1, 2, false, false⟩
  | 0x9A => some ⟨0x9A, "TXS", none, .TXS, 1, 2, false, false⟩
  | 0x18 => some ⟨0x18, "CLC", none, .CLC, 1, 2, false, false⟩
  | 0x38 => some ⟨0x38, "SEC", none, .SEC, 1, 2, false, false⟩
  | 0x58 => some ⟨0x58, "CLI", none, .CLI, 1, 2, false, false⟩
  | 0x78 => some ⟨0x78, "SEI", none, .SEI, 1, 2, false, false⟩
  | 0xD8 => some ⟨0xD8, "CLD", none, .CLD, 1, 2, false, false⟩
  | 0xF8 => some ⟨0xF8, "SED", none, .SED, 1, 2, false, false⟩
  | 0xB8 => some ⟨0xB8, "CLV", none, .CLV, 1, 2, false, false⟩
  | 0xEA => some ⟨0xEA, "NOP", none, .NOP, 1, 2, false, false⟩
  | 0x00 => some ⟨0x00, "BRK", none, .BRK, 1, 7, false, false⟩
  | 0x1A => some ⟨0x1A, "NOP*", none, .NOP, 1, 2, false, false⟩
  | 0x3A => some ⟨0x3A, "NOP*", none, .NOP, 1, 2, false, false⟩
  | 0x5A => some ⟨0x5A, "NOP*", none, .NOP, 1, 2, false, false⟩
  | 0x7A => some ⟨0x7A, "NOP*", none, .NOP, 1, 2, false, false⟩
  | 0xDA => some ⟨0xDA, "NOP*", none, .NOP, 1, 2, false, false⟩
  | 0xFA => some ⟨0xFA, "NOP*", none, .NOP, 1, 2, false, false⟩
  | 0x80 => some ⟨0x80, "NOP*", some .IMM, .NOP, 2, 2, false, false⟩
  | 0x04 => some ⟨0x04, "NOP*", some .ZP, .NOP, 2, 3, false, false⟩
  | _ => none

/-- The `step` callback of `src/services/use6502Emulator.ts`: fetch the opcode
(advancing PC provisionally), dispatch through the table (reverting PC and
halting on an unknown opcode), resolve the addressing mode, run the effect,
and account cycles. -/
def step (cpu : CPUState) (memory : Mem) : CPUState × Mem :=
  if cpu.halted then (cpu, memory)
  else
    let currentPC := cpu.PC
    let opCode := rdByte memory currentPC
    let newCpu := { cpu with PC := (cpu.PC + 1) % 65536 }
    match getInstructionDefinition opCode with
    | none => ({ newCpu with PC := currentPC, halted := true }, memory)
    | some idef =>
        let r :=
          match idef.addressingMode with
          | some m => resolveAM m newCpu memory
          | none => (newCpu, (0 : Int), false)
        let er := runExec idef.execute r.1 memory r.2.1
        let cpu4 := { er.1 with cycles := er.1.cycles + idef.baseCycles }
        let cpu5 :=
          if idef.pageCrossCycle && r.2.2 then { cpu4 with cycles := cpu4.cycles + 1 }
          else cpu4
        (cpu5, er.2)

/-- Iterated `step`. -/
def stepN : Nat → CPUState → Mem → CPUState × Mem
  | 0, cpu, memory => (cpu, memory)
  | n + 1, cpu, memory =>
      let r := step cpu memory
      stepN n r.1 r.2

/-- Source `initialCPUState` from `src/services/use6502Emulator.ts`. -/
def initialCPUState : CPUState :=
  { A := 0, X := 0, Y := 0, PC := DEFAULT_PROGRAM_LOAD_ADDRESS, SP := 0xFD,
    P := Flag.U ||| Flag.I, cycles := 0, halted := false }

/-- Source `resetCPU` from `src/services/use6502Emulator.ts`.  The source guard is
`memory[0xFFFC] !== undefined && memory[0xFFFD] !== undefined && !loadAddress`;
for the 64KB `Uint8Array` the two reads are always defined, and `!loadAddress`
is true exactly when `loadAddress` is absent or 0, so the reset-vector word
wins in those two cases and the (nonzero) override wins otherwise. -/
def resetCPU (memory : Mem) (loadAddress : Option Nat) : CPUState :=
  let startPC :=
    if loadAddress.getD 0 == 0 then
      (rdByte memory (RESET_VECTOR_ADDRESS + 1) <<< 8) ||| rdByte memory RESET_VECTOR_ADDRESS
    else
      loadAddress.getD DEFAULT_PROGRAM_LOAD_ADDRESS
  { initialCPUState with
      PC := startPC, P := Flag.U ||| Flag.I, SP := 0xFD,
      halted := false, cycles := 0 }

/-- One hex digit, lowercase, as produced by JavaScript `toString(16)`. -/
def hexDigit (n : Nat) : Char :=
  if n < 10 then Char.ofNat (48 + n) else Char.ofNat (87 + n)

/-- Two lowercase hex digits: `toString(16).padStart(2, "0")` for a byte. -/
def hex2 (n : Nat) : String :=
  String.mk [hexDigit (n / 16 % 16), hexDigit (n % 16)]

/-- Four lowercase hex digits: `toString(16).padStart(4, "0")` for a word. -/
def hex4 (n : Nat) : String :=
  String.mk [hexDigit (n / 4096 % 16), hexDigit (n / 256 % 16),
    hexDigit (n / 16 % 16), hexDigit (n % 16)]

/-- Source `InstructionInfo` from `src/types.ts`. -/
structure InstructionInfo where
  address : Nat
  opCode : Nat
  mnemonic : String
  operandStr : String
  bytes : List Nat
  text : String
  deriving DecidableEq, Repr

/-- Operand text for a 2-byte instruction in `disassemble`. -/
def operandStr2 (idef : InstructionDefinition) (memory : Mem) (currentAddress : Nat) :
    String :=
  let operand := rdByte memory (currentAddress + 1)
  match idef.addressingMode with
  | some .IMM => "#$" ++ hex2 operand
  | some .REL =>
      let relAddr :=
        mask16i ((currentAddress : Int) + 2 +
          (if operand > 127 then (operand : Int) - 256 else (operand : Int)))
      "$" ++ hex4 relAddr
  | some .ZP => "$" ++ hex2 operand
  | some .ZPX => "$" ++ hex2 operand ++ ",X"
  | some .ZPY => "$" ++ hex2 operand ++ ",Y"
  | some .IZX => "($" ++ hex2 operand ++ ",X)"
  | some .IZY => "($" ++ hex2 operand ++ "),Y"
  | _ => "$" ++ hex2 operand

/-- Operand text for a 3-byte instruction in `disassemble`. -/
def operandStr3 (idef : InstructionDefinition) (memory : Mem) (currentAddress : Nat) :
    String :=
  let operandLow := rdByte memory (currentAddress + 1)
  let operandHigh := rdByte memory (currentAddress + 2)
  let operandWord := (operandHigh <<< 8) ||| operandLow
  match idef.addressingMode with
  | some .ABS => "$" ++ hex4 operandWord
  | some .ABSX => "$" ++ hex4 operandWord ++ ",X"
  | some .ABSY => "$" ++ hex4 operandWord ++ ",Y"
  | some .IND => "($" ++ hex4 operandWord ++ ")"
  | _ => "$" ++ hex4 operandWord

/-- The `disassemble` callback of `src/services/use6502Emulator.ts`: a pure
walk over memory (it reads the shared table and memory but writes nothing).
The loop runs while `i < count && currentAddress < MEMORY_SIZE`; an unknown
opcode becomes a one-byte `DB $xx` record and the walk advances by one. -/
def disassemble (memory : Mem) (currentAddress : Nat) (count : Nat) :
    List InstructionInfo :=
  match count with
  | 0 => []
  | count + 1 =>
    if currentAddress < MEMORY_SIZE then
      let opCode := rdByte memory currentAddress
      match getInstructionDefinition opCode with
      | some idef =>
          let operandBytes :=
            (List.range (idef.bytes - 1)).map fun j =>
              if currentAddress + j + 1 < MEMORY_SIZE then
                rdByte memory (currentAddress + j + 1)
              else 0x00
          let operandStr :=
            if idef.bytes == 2 then operandStr2 idef memory currentAddress
            else if idef.bytes == 3 then operandStr3 idef memory currentAddress
            else ""
          { address := currentAddress, opCode := opCode, mnemonic := idef.mnemonic,
            operandStr := operandStr, bytes := opCode :: operandBytes,
            text := idef.mnemonic ++ " " ++ operandStr } ::
            disassemble memory (currentAddress + idef.bytes) count
      | none =>
          { address := currentAddress, opCode := opCode, mnemonic := "???",
            operandStr := "", bytes := [opCode],
            text := "DB $" ++ hex2 opCode } ::
            disassemble memory (currentAddress + 1) count
    else []

/-- The masking invariant of the spec: 8-bit registers stay below 256 and the
program counter below 65536. -/
abbrev RegInv (cpu : CPUState) : Prop :=
  cpu.A < 256 ∧ cpu.X < 256 ∧ cpu.Y < 256 ∧ cpu.SP < 256 ∧ cpu.PC < 65536

/-- All-zero memory. -/
def memZero : Mem := fun _ => 0

/-- Memory filled with the undefined opcode 0xFF. -/
def memAllFF : Mem := fun _ => 0xFF

/-- Memory for the indirect-addressing bug test: pointer 0x30FF at PC 0x1000,
0x80 at 0x30FF, 0x50 at 0x3100, 0x40 at 0x3000. -/
def memIndBug : Mem := fun a =>
  if a = 0x1000 then 0xFF else if a = 0x1001 then 0x30 else
  if a = 0x30FF then 0x80 else if a = 0x3100 then 0x50 else
  if a = 0x3000 then 0x40 else 0

/-- Memory holding operand 1 at address 0. -/
def memOp1 : Mem := fun a => if a = 0 then 1 else 0

/-- Memory whose reset vector points at 0x1234. -/
def memVec : Mem := fun a =>
  if a = 0xFFFC then 0x34 else if a = 0xFFFD then 0x12 else 0

/-- CPU at PC 0x10F0 with Zero set, for the branch cycle test. -/
def cpuBranch : CPUState := ⟨0, 0, 0, 0x10F0, 0xFD, Flag.U ||| Flag.Z, 0, false⟩

/-- CPU at PC 0x1000 for the indirect-addressing test. -/
def cpuInd : CPUState := ⟨0, 0, 0, 0x1000, 0xFD, Flag.U ||| Flag.I, 0, false⟩

/-- CPU with A = 0x7F and carry clear. -/
def cpuAdc7F : CPUState := ⟨0x7F, 0, 0, 0, 0xFD, Flag.U, 0, false⟩

/-- CPU with A = 0xFF and carry clear. -/
def cpuAdcFF : CPUState := ⟨0xFF, 0, 0, 0, 0xFD, Flag.U, 0, false⟩

/-- CPU at PC 0x1003, SP 0xFD, for the subroutine round-trip test. -/
def cpuJsr : CPUState := ⟨0, 0, 0, 0x1003, 0xFD, Flag.U ||| Flag.I, 0, false⟩

/-- A running CPU at the default load address. -/
def cpuRun : CPUState := ⟨0, 0, 0, 0x0200, 0xFD, Flag.U ||| Flag.I, 0, false⟩

/-! ### Arithmetic and bit-level helper lemmas -/

theorem rdByte_lt (m : Mem) (a : Nat) : rdByte m a < 256 :=
  Nat.mod_lt _ (by norm_num)

theorem land255_eq_mod (n : Nat) : n &&& 255 = n % 256 := by
  have h := Nat.and_pow_two_sub_one_eq_mod n 8
  norm_num at h
  exact h

theorem mask8i_lt (x : Int) : mask8i x < 256 := by
  unfold mask8i
  omega

theorem mask16i_lt (x : Int) : mask16i x < 65536 := by
  unfold mask16i
  omega

theorem testBit_div_two_pow (n k i : Nat) : (n / 2 ^ k).testBit i = n.testBit (k + i) := by
  rw [Nat.testBit_to_div_mod, Nat.testBit_to_div_mod, Nat.div_div_eq_div_mul, ← pow_add]

theorem lor_mod_two_pow (x y k : Nat) : (x ||| y) % 2 ^ k = x % 2 ^ k ||| y % 2 ^ k := by
  apply Nat.eq_of_testBit_eq
  intro i
  simp only [Nat.testBit_mod_two_pow, Nat.testBit_lor]
  cases Nat.decLt i k with
  | isTrue h => simp [h]
  | isFalse h => simp [h]

theorem lor_div_two_pow (x y k : Nat) : (x ||| y) / 2 ^ k = x / 2 ^ k ||| y / 2 ^ k := by
  apply Nat.eq_of_testBit_eq
  intro i
  rw [testBit_div_two_pow, Nat.testBit_lor, Nat.testBit_lor, testBit_div_two_pow,
    testBit_div_two_pow]

theorem shiftLeft8_lor_eq (h l : Nat) (hl : l < 256) : (h <<< 8) ||| l = h * 256 + l := by
  have hm : ((h <<< 8) ||| l) % 256 = l := by
    have hd := lor_mod_two_pow (h <<< 8) l 8
    norm_num at hd
    rw [hd, Nat.shiftLeft_eq]
    norm_num
    exact hl
  have hq : ((h <<< 8) ||| l) / 256 = h := by
    have hd := lor_div_two_pow (h <<< 8) l 8
    norm_num at hd
    rw [hd, Nat.shiftLeft_eq]
    norm_num
    rw [Nat.div_eq_of_lt hl]
    simp
  omega

theorem lor_shiftLeft8_eq (l h : Nat) (hl : l < 256) : l ||| (h <<< 8) = h * 256 + l := by
  rw [Nat.lor_comm]
  exact shiftLeft8_lor_eq h l hl

theorem shiftLeft8_lor_lt (h l : Nat) (hh : h < 256) (hl : l < 256) :
    (h <<< 8) ||| l < 65536 := by
  rw [shiftLeft8_lor_eq h l hl]
  omega

theorem lor_lt_256 (x y : Nat) (hx : x < 256) (hy : y < 256) : x ||| y < 256 := by
  have h1 : x < 2 ^ 8 := by norm_num; exact hx
  have h2 : y < 2 ^ 8 := by norm_num; exact hy
  have h3 := Nat.or_lt_two_pow h1 h2
  norm_num at h3
  exact h3

theorem xor_lt_256 (x y : Nat) (hx : x < 256) (hy : y < 256) : x ^^^ y < 256 := by
  have h1 : x < 2 ^ 8 := by norm_num; exact hx
  have h2 : y < 2 ^ 8 := by norm_num; exact hy
  have h3 := Nat.xor_lt_two_pow h1 h2
  norm_num at h3
  exact h3

theorem testBit_setIf_same (p : Nat) (b : Bool) (f j : Nat) (hj : j < 32)
    (hf : f.testBit j = true) : (setIf p b f).testBit j = b := by
  have h32 : (4294967295 : Nat).testBit j = true := by
    have he : (4294967295 : Nat) = 2 ^ 32 - 1 := by norm_num
    rw [he, Nat.testBit_two_pow_sub_one]
    simpa using hj
  unfold setIf
  cases b with
  | true => simp [Nat.testBit_lor, hf]
  | false => simp [Nat.testBit_land, Nat.testBit_xor, hf, h32]

theorem testBit_setIf_diff (p : Nat) (b : Bool) (f j : Nat) (hj : j < 32)
    (hf : f.testBit j = false) : (setIf p b f).testBit j = p.testBit j := by
  have h32 : (4294967295 : Nat).testBit j = true := by
    have he : (4294967295 : Nat) = 2 ^ 32 - 1 := by norm_num
    rw [he, Nat.testBit_two_pow_sub_one]
    simpa using hj
  unfold setIf
  cases b with
  | true => simp [Nat.testBit_lor, hf]
  | false => simp [Nat.testBit_land, Nat.testBit_xor, hf, h32]

theorem rdByte_wrByte_self (m : Mem) (a v : Nat) (h : a < MEMORY_SIZE) :
    rdByte (wrByte m a v) a = v % 256 := by
  simp [rdByte, wrByte, h]

theorem rdByte_wrByte_other (m : Mem) (a b v : Nat) (h : b ≠ a) :
    rdByte (wrByte m a v) b = rdByte m b := by
  unfold wrByte
  split
  · simp [rdByte, h]
  · rfl

/-! ### Claim theorems -/

/-- C1 (code-bug exhibit): executing the BEQ effect with Zero set at
PC = 0x10F0 with the resolved relative offset +0x20 on all-zero memory leaves
PC = 0x10F0 and adds only 1 cycle, not PC = 0x1110 and 2 cycles as the claim
(and the repo's own tests) require: `genericBranch` reads
`memory[relativeOffsetAddress]` although `AM.REL` already returned the signed
offset itself, so the fetched zero-page byte (here 0) is added instead of the
offset. -/
theorem beq_misuses_resolved_offset :
    (BEQ cpuBranch memZero 0x20).1.PC = 0x10F0 ∧
    (BEQ cpuBranch memZero 0x20).1.PC ≠ 0x1110 ∧
    (BEQ cpuBranch memZero 0x20).1.cycles = 1 ∧
    (BNE cpuBranch memZero 0x20).1.PC = 0x10F0 ∧
    (BNE cpuBranch memZero 0x20).1.cycles = 0 := by
  decide

/-- C2: while running, a `step` whose opcode has no table entry latches the
halted flag and leaves everything else (PC, registers, flags, cycles, memory)
unchanged — the provisional PC advance is undone; once halted, `step` is a
no-op. -/
theorem step_unknown_opcode_halts :
    (∀ (cpu : CPUState) (memory : Mem), cpu.halted = false →
      getInstructionDefinition (rdByte memory cpu.PC) = none →
      step cpu memory = ({ cpu with halted := true }, memory)) ∧
    (∀ (cpu : CPUState) (memory : Mem), cpu.halted = true →
      step cpu memory = (cpu, memory)) := by
  constructor
  · intro cpu memory hrun hdef
    simp [step, hrun, hdef]
  · intro cpu memory hh
    simp [step, hh]

/-- Witness for C2 at a concrete input: opcode 0xFF at PC 0x0200. -/
theorem step_unknown_opcode_halts_witness :
    cpuRun.halted = false ∧
    getInstructionDefinition (rdByte memAllFF cpuRun.PC) = none ∧
    step cpuRun memAllFF = ({ cpuRun with halted := true }, memAllFF) :=
  ⟨rfl, by decide, step_unknown_opcode_halts.1 cpuRun memAllFF rfl (by decide)⟩

/-- C7 counterexample: an explicit override of 0 is supplied to `resetCPU`,
yet PC is set from the reset vector (0x1234), not to the override — the
source tests `!loadAddress`, which is also true for the number 0. -/
theorem reset_zero_override_ignored :
    (resetCPU memVec (some 0)).PC = 0x1234 ∧ (resetCPU memVec (some 0)).PC ≠ 0 := by
  decide

/-- C7 (amended): `resetCPU` forces the Unused and Interrupt-Disable flags,
sets SP to 0xFD, clears halted, zeroes the cycle counter, and sets PC to the
explicit override when one is supplied and nonzero; otherwise (no override,
or an override of 0) PC comes from the little-endian word at 0xFFFC/0xFFFD. -/
theorem reset_initializes :
    ∀ (memory : Mem) (loadAddress : Option Nat),
      (resetCPU memory loadAddress).SP = 0xFD ∧
      (resetCPU memory loadAddress).P = Flag.U ||| Flag.I ∧
      (resetCPU memory loadAddress).halted = false ∧
      (resetCPU memory loadAddress).cycles = 0 ∧
      (resetCPU memory loadAddress).A = 0 ∧
      (resetCPU memory loadAddress).X = 0 ∧
      (resetCPU memory loadAddress).Y = 0 ∧
      (resetCPU memory loadAddress).PC =
        (if loadAddress.getD 0 = 0 then
          256 * rdByte memory 0xFFFD + rdByte memory 0xFFFC
        else loadAddress.getD 0) := by
  intro memory la
  refine ⟨rfl, rfl, rfl, rfl, rfl, rfl, rfl, ?_⟩
  show (resetCPU memory la).PC = _
  unfold resetCPU
  rcases hla : la.getD 0 with _ | n
  · simp only [hla, initialCPUState]
    norm_num [RESET_VECTOR_ADDRESS]
    rw [shiftLeft8_lor_eq _ _ (rdByte_lt memory 0xFFFC)]
    omega
  · simp only [hla, initialCPUState]
    norm_num [DEFAULT_PROGRAM_LOAD_ADDRESS]
    cases la with
    | none => simp at hla
    | some v =>
        simp only [Option.getD] at hla ⊢
        omega

/-- C8: `disassemble` is a pure function of memory and its arguments — its
embedding neither takes nor returns a `CPUState` and returns the memory it
was given untouched, so two calls with the same arguments give the same
output; an address holding an opcode with no table entry produces a one-byte
`DB $xx` data placeholder and the walk advances one byte. -/
theorem disassemble_pure_and_unknown_placeholder :
    (∀ (memory : Mem) (startAddress count : Nat),
      disassemble memory startAddress count = disassemble memory startAddress count) ∧
    (∀ (memory : Mem) (a c : Nat), a < MEMORY_SIZE →
      getInstructionDefinition (rdByte memory a) = none →
      disassemble memory a (c + 1) =
        { address := a, opCode := rdByte memory a, mnemonic := "???", operandStr := "",
          bytes := [rdByte memory a],
          text := "DB $" ++ hex2 (rdByte memory a) } ::
          disassemble memory (a + 1) c) := by
  refine ⟨fun _ _ _ => rfl, ?_⟩
  intro memory a c ha hdef
  rw [disassemble]
  simp [ha, hdef]

/-- Witness for C8 at a concrete input: opcode 0xFF at address 0. -/
theorem disassemble_pure_witness :
    0 < MEMORY_SIZE ∧
    getInstructionDefinition (rdByte memAllFF 0) = none ∧
    disassemble memAllFF 0 1 =
      { address := 0, opCode := rdByte memAllFF 0, mnemonic := "???", operandStr := "",
        bytes := [rdByte memAllFF 0],
        text := "DB $" ++ hex2 (rdByte memAllFF 0) } :: disassemble memAllFF 1 0 :=
  ⟨by decide, by decide,
    disassemble_pure_and_unknown_placeholder.2 memAllFF 0 0 (by decide) (by decide)⟩

/-- C10: the stores STA/STX/STY leave the CPU state (in particular P, so the
Zero and Negative flags) entirely unchanged and mutate only the single
addressed memory byte; TXS leaves memory and every CPU field except SP
unchanged and copies X into SP without touching P. -/
theorem store_transfer_frame :
    ∀ (cpu : CPUState) (memory : Mem) (address : Nat), address < MEMORY_SIZE →
      ((STA cpu memory address).1 = cpu ∧
        rdByte (STA cpu memory address).2 address = cpu.A % 256 ∧
        (∀ b, b ≠ address → (STA cpu memory address).2 b = memory b)) ∧
      ((STX cpu memory address).1 = cpu ∧
        rdByte (STX cpu memory address).2 address = cpu.X % 256 ∧
        (∀ b, b ≠ address → (STX cpu memory address).2 b = memory b)) ∧
      ((STY cpu memory address).1 = cpu ∧
        rdByte (STY cpu memory address).2 address = cpu.Y % 256 ∧
        (∀ b, b ≠ address → (STY cpu memory address).2 b = memory b)) ∧
      ((TXS cpu memory address).2 = memory ∧
        (TXS cpu memory address).1.P = cpu.P ∧
        (TXS cpu memory address).1.A = cpu.A ∧
        (TXS cpu memory address).1.X = cpu.X ∧
        (TXS cpu memory address).1.Y = cpu.Y ∧
        (TXS cpu memory address).1.PC = cpu.PC ∧
        (TXS cpu memory address).1.cycles = cpu.cycles ∧
        (TXS cpu memory address).1.halted = cpu.halted ∧
        (TXS cpu memory address).1.SP = cpu.X) := by
  intro cpu memory address ha
  refine ⟨⟨rfl, ?_, ?_⟩, ⟨rfl, ?_, ?_⟩, ⟨rfl, ?_, ?_⟩,
    rfl, rfl, rfl, rfl, rfl, rfl, rfl, rfl, rfl⟩ <;>
    first
      | exact rdByte_wrByte_self memory address _ ha
      | (intro b hb
         show wrByte memory address _ b = memory b
         unfold wrByte
         by_cases h : address < MEMORY_SIZE
         · simp [h, hb]
         · simp [h])

/-- Witness for C10 at a concrete input: STA to address 16, observer at 17. -/
theorem store_transfer_frame_witness :
    (STA cpuRun memZero 16).1 = cpuRun ∧ (STA cpuRun memZero 16).2 17 = memZero 17 :=
  ⟨((store_transfer_frame cpuRun memZero 16 (by decide)).1).1,
    ((store_transfer_frame cpuRun memZero 16 (by decide)).1).2.2 17 (by decide)⟩

theorem land_ff00 (n : Nat) (h : n < 65536) : n &&& 65280 = n / 256 * 256 := by
  apply Nat.eq_of_testBit_eq
  intro i
  have h65280 : (65280 : Nat) = 255 <<< 8 := by norm_num [Nat.shiftLeft_eq]
  have h255 : (255 : Nat) = 2 ^ 8 - 1 := by norm_num
  have hr : (n / 256 * 256 : Nat) = (n / 2 ^ 8) <<< 8 := by
    norm_num [Nat.shiftLeft_eq]
  rw [Nat.testBit_land, h65280, Nat.testBit_shiftLeft, h255, Nat.testBit_two_pow_sub_one,
    hr, Nat.testBit_shiftLeft, testBit_div_two_pow]
  rcases Nat.lt_or_ge i 8 with hi | hi
  · simp [Nat.not_le.mpr hi]
  · rcases Nat.lt_or_ge i 16 with hi2 | hi2
    · have he : 8 + (i - 8) = i := by omega
      simp [hi, he, Nat.lt_of_lt_of_le (by omega : i - 8 < 8) (le_refl 8)]
    · have hn : n < 2 ^ i := by
        calc n < 65536 := h
        _ = 2 ^ 16 := by norm_num
        _ ≤ 2 ^ i := Nat.pow_le_pow_right (by norm_num) hi2
      have he : 8 + (i - 8) = i := by omega
      simp [hi, he, Nat.testBit_lt_two_pow hn]

/-- C3: the Indirect mode dereferences a 16-bit pointer P little-endian, but
when P ends in 0xFF the high byte of the target comes from the start of the
same page (P & 0xFF00) instead of P + 1; concretely pointer 0x30FF with
memory[0x30FF] = 0x80 and memory[0x3000] = 0x40 resolves to 0x4080, not
0x5080. -/
theorem indirect_addressing_bug :
    (∀ (cpu : CPUState) (memory : Mem),
      (resolveAM .IND cpu memory).2.1 =
        ((let pointer := 256 * rdByte memory ((cpu.PC + 1) % 65536) + rdByte memory cpu.PC
          if pointer % 256 = 255 then
            rdByte memory pointer + 256 * rdByte memory (pointer / 256 * 256)
          else
            rdByte memory pointer + 256 * rdByte memory (pointer + 1) : Nat) : Int)) ∧
    (resolveAM .IND cpuInd memIndBug).2.1 = 0x4080 ∧
    (resolveAM .IND cpuInd memIndBug).2.1 ≠ 0x5080 := by
  refine ⟨?_, by decide, by decide⟩
  intro cpu memory
  have hlo := rdByte_lt memory cpu.PC
  have hhi := rdByte_lt memory ((cpu.PC + 1) % 65536)
  have hptr : (rdByte memory ((cpu.PC + 1) % 65536) <<< 8) ||| rdByte memory cpu.PC =
      256 * rdByte memory ((cpu.PC + 1) % 65536) + rdByte memory cpu.PC := by
    rw [shiftLeft8_lor_eq _ _ hlo]
    ring
  simp only [resolveAM, fetchWord, fetchByte, hptr]
  have hplt : 256 * rdByte memory ((cpu.PC + 1) % 65536) + rdByte memory cpu.PC < 65536 := by
    omega
  by_cases hc :
      (256 * rdByte memory ((cpu.PC + 1) % 65536) + rdByte memory cpu.PC) % 256 = 255
  · simp only [land255_eq_mod, hc]
    norm_num
    rw [land_ff00 _ hplt,
      lor_shiftLeft8_eq _ _ (rdByte_lt memory
        (256 * rdByte memory ((cpu.PC + 1) % 65536) + rdByte memory cpu.PC))]
    push_cast
    ring
  · simp only [land255_eq_mod, hc]
    norm_num [hc]
    rw [lor_shiftLeft8_eq _ _ (rdByte_lt memory
        (256 * rdByte memory ((cpu.PC + 1) % 65536) + rdByte memory cpu.PC))]
    push_cast
    ring

/-- C4: ADC computes A + operand + carry-in (binary, no decimal mode); the
new accumulator is the result mod 256, Carry (bit 0) is set iff the result
exceeds 255, Overflow (bit 6) follows the sign-mismatch formula
`¬((A⊕operand)&0x80) ∧ ((A⊕result)&0x80)`; SBC equals ADC run against the
complemented operand.  The two concrete cases 0x7F+1 and 0xFF+1 (carry clear)
exhibit N,V and C,Z respectively. -/
theorem adc_sbc_semantics :
    (∀ (cpu : CPUState) (memory : Mem) (address : Nat), address < MEMORY_SIZE →
      ((ADC cpu memory address).1.A =
        (cpu.A + rdByte memory address +
          (if flagOn cpu.P Flag.C then 1 else 0)) % 256) ∧
      ((ADC cpu memory address).1.P.testBit 0 =
        decide (cpu.A + rdByte memory address +
          (if flagOn cpu.P Flag.C then 1 else 0) > 255)) ∧
      ((ADC cpu memory address).1.P.testBit 6 =
        ((((cpu.A ^^^ rdByte memory address) &&& 0x80) == 0) &&
          (((cpu.A ^^^ (cpu.A + rdByte memory address +
            (if flagOn cpu.P Flag.C then 1 else 0))) &&& 0x80) != 0))) ∧
      (SBC cpu memory address).1 =
        (ADC cpu (wrByte memory address (rdByte memory address ^^^ 0xFF)) address).1) ∧
    ((ADC cpuAdc7F memOp1 0).1.A = 0x80 ∧
      (ADC cpuAdc7F memOp1 0).1.P.testBit 7 = true ∧
      (ADC cpuAdc7F memOp1 0).1.P.testBit 6 = true ∧
      (ADC cpuAdc7F memOp1 0).1.P.testBit 0 = false ∧
      (ADC cpuAdc7F memOp1 0).1.P.testBit 1 = false) ∧
    ((ADC cpuAdcFF memOp1 0).1.A = 0x00 ∧
      (ADC cpuAdcFF memOp1 0).1.P.testBit 0 = true ∧
      (ADC cpuAdcFF memOp1 0).1.P.testBit 1 = true ∧
      (ADC cpuAdcFF memOp1 0).1.P.testBit 6 = false ∧
      (ADC cpuAdcFF memOp1 0).1.P.testBit 7 = false) := by
  refine ⟨?_, by decide, by decide⟩
  intro cpu memory address ha
  have hxor : rdByte (wrByte memory address (rdByte memory address ^^^ 0xFF)) address =
      rdByte memory address ^^^ 0xFF := by
    rw [rdByte_wrByte_self _ _ _ ha]
    exact Nat.mod_eq_of_lt
      (xor_lt_256 _ _ (rdByte_lt memory address) (by norm_num))
  refine ⟨?_, ?_, ?_, ?_⟩
  · simp only [ADC, setZNC, setZN]
  · simp only [ADC, setZNC, setZN]
    rw [testBit_setIf_same] <;> decide
  · simp only [ADC, setZNC, setZN]
    rw [testBit_setIf_diff]
    rotate_left
    · decide
    · decide
    rw [testBit_setIf_diff]
    rotate_left
    · decide
    · decide
    rw [testBit_setIf_diff]
    rotate_left
    · decide
    · decide
    rw [testBit_setIf_same] <;> decide
  · simp only [SBC, ADC, hxor]

/-- Witness for C4 at a concrete input (address 0, operand 1). -/
theorem adc_sbc_semantics_witness :
    (0 : Nat) < MEMORY_SIZE ∧
    (SBC cpuAdc7F memOp1 0).1 =
      (ADC cpuAdc7F (wrByte memOp1 0 (rdByte memOp1 0 ^^^ 0xFF)) 0).1 :=
  ⟨by decide, (adc_sbc_semantics.1 cpuAdc7F memOp1 0 (by decide)).2.2.2⟩

theorem testBit_mod256 (x i : Nat) (hi : i < 8) : (x % 256).testBit i = x.testBit i := by
  have h : (256 : Nat) = 2 ^ 8 := by norm_num
  rw [h, Nat.testBit_mod_two_pow]
  simp [hi]

theorem mask8i_sub_one (n : Nat) (_h : n < 256) :
    mask8i ((n : Int) - 1) = (n + 255) % 256 := by
  unfold mask8i
  omega

theorem mask16i_sub_one (n : Nat) (_h : n < 65536) :
    mask16i ((n : Int) - 1) = (n + 65535) % 65536 := by
  unfold mask16i
  omega

/-- C9: pushing the status register (PHP, and the status push inside BRK)
always stores the byte with the Break (bit 4) and Unused (bit 5) bits set;
pulling it (PLP, and the status pull inside RTI) never restores Break and
always forces Unused, whatever byte is on the stack. -/
theorem status_push_pull_break_unused :
    ∀ (cpu : CPUState) (memory : Mem), cpu.SP < 256 →
      (rdByte (PHP cpu memory 0).2 (0x100 + cpu.SP)).testBit 4 = true ∧
      (rdByte (PHP cpu memory 0).2 (0x100 + cpu.SP)).testBit 5 = true ∧
      (rdByte (BRK cpu memory 0).2 (0x100 + (cpu.SP + 254) % 256)).testBit 4 = true ∧
      (rdByte (BRK cpu memory 0).2 (0x100 + (cpu.SP + 254) % 256)).testBit 5 = true ∧
      (PLP cpu memory 0).1.P.testBit 4 = false ∧
      (PLP cpu memory 0).1.P.testBit 5 = true ∧
      (RTI cpu memory 0).1.P.testBit 4 = false ∧
      (RTI cpu memory 0).1.P.testBit 5 = true := by
  intro cpu memory hsp
  have hB4 : Nat.testBit Flag.B 4 = true := by decide
  have hU5 : Nat.testBit Flag.U 5 = true := by decide
  have hst : 0x100 + cpu.SP < MEMORY_SIZE := by
    show 0x100 + cpu.SP < 0x10000
    omega
  have hst2 : 0x100 + (cpu.SP + 254) % 256 < MEMORY_SIZE := by
    show 0x100 + (cpu.SP + 254) % 256 < 0x10000
    omega
  have hm1 : mask8i ((cpu.SP : Int) - 1) = (cpu.SP + 255) % 256 := mask8i_sub_one _ hsp
  have hm2 : mask8i ((((cpu.SP + 255) % 256 : Nat) : Int) - 1) = (cpu.SP + 254) % 256 := by
    rw [mask8i_sub_one _ (Nat.mod_lt _ (by norm_num))]
    omega
  have hne1 : 0x100 + (cpu.SP + 254) % 256 ≠ 0x100 + cpu.SP := by omega
  have hne2 : 0x100 + (cpu.SP + 254) % 256 ≠ 0x100 + (cpu.SP + 255) % 256 := by omega
  refine ⟨?_, ?_, ?_, ?_, ?_, ?_, ?_, ?_⟩
  · rw [show (PHP cpu memory 0).2 =
        wrByte memory (0x100 + cpu.SP) (cpu.P ||| Flag.B ||| Flag.U) from rfl]
    rw [rdByte_wrByte_self _ _ _ hst, testBit_mod256 _ _ (by norm_num)]
    simp [Nat.testBit_lor, hB4]
  · rw [show (PHP cpu memory 0).2 =
        wrByte memory (0x100 + cpu.SP) (cpu.P ||| Flag.B ||| Flag.U) from rfl]
    rw [rdByte_wrByte_self _ _ _ hst, testBit_mod256 _ _ (by norm_num)]
    simp [Nat.testBit_lor, hU5]
  · simp only [BRK, pushWord, pushByte, fetchByte, STACK_BASE, hm1, hm2]
    rw [rdByte_wrByte_self _ _ _ hst2, testBit_mod256 _ _ (by norm_num)]
    simp [Nat.testBit_lor, hB4]
  · simp only [BRK, pushWord, pushByte, fetchByte, STACK_BASE, hm1, hm2]
    rw [rdByte_wrByte_self _ _ _ hst2, testBit_mod256 _ _ (by norm_num)]
    simp [Nat.testBit_lor, hU5]
  · simp only [PLP, pullByte]
    simp [Nat.testBit_lor, Nat.testBit_land,
      (by decide : Nat.testBit (0xFFFFFFFF ^^^ Flag.B) 4 = false),
      (by decide : Nat.testBit Flag.U 4 = false)]
  · simp only [PLP, pullByte]
    simp [Nat.testBit_lor, hU5]
  · simp only [RTI, pullWord, pullByte]
    simp [Nat.testBit_lor, Nat.testBit_land,
      (by decide : Nat.testBit (0xFFFFFFFF ^^^ Flag.B) 4 = false),
      (by decide : Nat.testBit Flag.U 4 = false)]
  · simp only [RTI, pullWord, pullByte]
    simp [Nat.testBit_lor, hU5]

/-- Witness for C9 at a concrete input. -/
theorem status_push_pull_break_unused_witness :
    cpuRun.SP < 256 ∧ (PLP cpuRun memAllFF 0).1.P.testBit 4 = false :=
  ⟨by decide, (status_push_pull_break_unused cpuRun memAllFF (by decide)).2.2.2.2.1⟩

/-- C5: JSR pushes `(PC - 1) & 0xFFFF` high byte first at the stack page,
decrements SP by 2 with 8-bit wrap and jumps to the target; RTS from the
resulting state pulls the word and adds 1, restoring the original PC and SP.
Concretely, JSR to 0x2000 from PC = 0x1003, SP = 0xFD pushes 0x10 at 0x1FD
and 0x02 at 0x1FC, sets SP = 0xFB, and RTS restores PC = 0x1003, SP = 0xFD. -/
theorem jsr_rts_roundtrip :
    (∀ (cpu : CPUState) (memory : Mem) (target : Nat),
      cpu.PC < 65536 → cpu.SP < 256 →
      (JSR cpu memory target).1.PC = target ∧
      (JSR cpu memory target).1.SP = (cpu.SP + 254) % 256 ∧
      rdByte (JSR cpu memory target).2 (0x100 + cpu.SP) =
        (cpu.PC + 65535) % 65536 / 256 ∧
      rdByte (JSR cpu memory target).2 (0x100 + (cpu.SP + 255) % 256) =
        (cpu.PC + 65535) % 65536 % 256 ∧
      (RTS (JSR cpu memory target).1 (JSR cpu memory target).2 0).1.PC = cpu.PC ∧
      (RTS (JSR cpu memory target).1 (JSR cpu memory target).2 0).1.SP = cpu.SP) ∧
    ((JSR cpuJsr memZero 0x2000).1.PC = 0x2000 ∧
      (JSR cpuJsr memZero 0x2000).1.SP = 0xFB ∧
      rdByte (JSR cpuJsr memZero 0x2000).2 0x1FD = 0x10 ∧
      rdByte (JSR cpuJsr memZero 0x2000).2 0x1FC = 0x02 ∧
      (RTS (JSR cpuJsr memZero 0x2000).1 (JSR cpuJsr memZero 0x2000).2 0).1.PC = 0x1003 ∧
      (RTS (JSR cpuJsr memZero 0x2000).1 (JSR cpuJsr memZero 0x2000).2 0).1.SP = 0xFD) := by
  refine ⟨?_, by decide, by decide, by decide, by decide, by decide, by decide⟩
  intro cpu memory target hPC hSP
  have hm1 : mask8i ((cpu.SP : Int) - 1) = (cpu.SP + 255) % 256 := mask8i_sub_one _ hSP
  have hm2 : mask8i ((((cpu.SP + 255) % 256 : Nat) : Int) - 1) = (cpu.SP + 254) % 256 := by
    rw [mask8i_sub_one _ (Nat.mod_lt _ (by norm_num))]
    omega
  have hw : mask16i ((cpu.PC : Int) - 1) = (cpu.PC + 65535) % 65536 :=
    mask16i_sub_one _ hPC
  have hst : 0x100 + cpu.SP < MEMORY_SIZE := by
    show 0x100 + cpu.SP < 0x10000
    omega
  have hst1 : 0x100 + (cpu.SP + 255) % 256 < MEMORY_SIZE := by
    show 0x100 + (cpu.SP + 255) % 256 < 0x10000
    omega
  have hne : 0x100 + cpu.SP ≠ 0x100 + (cpu.SP + 255) % 256 := by omega
  have hmem : (JSR cpu memory target).2 =
      wrByte (wrByte memory (0x100 + cpu.SP) ((((cpu.PC + 65535) % 65536) >>> 8) % 256))
        (0x100 + (cpu.SP + 255) % 256) ((cpu.PC + 65535) % 65536 % 256) := by
    simp only [JSR, pushWord, pushByte, STACK_BASE, hw, hm1]
  have hSPj : (JSR cpu memory target).1.SP = (cpu.SP + 254) % 256 := by
    simp only [JSR, pushWord, pushByte, hm1, hm2]
  have hrd_lo : rdByte (JSR cpu memory target).2 (0x100 + (cpu.SP + 255) % 256) =
      (cpu.PC + 65535) % 65536 % 256 := by
    rw [hmem, rdByte_wrByte_self _ _ _ hst1]
    omega
  have hrd_hi : rdByte (JSR cpu memory target).2 (0x100 + cpu.SP) =
      (cpu.PC + 65535) % 65536 / 256 := by
    rw [hmem, rdByte_wrByte_other _ _ _ _ hne, rdByte_wrByte_self _ _ _ hst,
      Nat.shiftRight_eq_div_pow]
    norm_num
    omega
  have hsp1 : ((cpu.SP + 254) % 256 + 1) % 256 = (cpu.SP + 255) % 256 := by omega
  have hsp2 : ((cpu.SP + 255) % 256 + 1) % 256 = cpu.SP := by omega
  refine ⟨rfl, hSPj, hrd_hi, hrd_lo, ?_, ?_⟩
  · show ((rdByte (JSR cpu memory target).2
        (STACK_BASE + (((JSR cpu memory target).1.SP + 1) % 256 + 1) % 256) <<< 8 |||
        rdByte (JSR cpu memory target).2
          (STACK_BASE + ((JSR cpu memory target).1.SP + 1) % 256)) + 1) % 65536 = cpu.PC
    rw [hSPj, hsp1]
    show ((rdByte (JSR cpu memory target).2
        (0x100 + ((cpu.SP + 255) % 256 + 1) % 256) <<< 8 |||
        rdByte (JSR cpu memory target).2 (0x100 + (cpu.SP + 255) % 256)) + 1) % 65536 = cpu.PC
    rw [hsp2, hrd_hi, hrd_lo, shiftLeft8_lor_eq _ _ (by omega)]
    omega
  · show ((((JSR cpu memory target).1.SP + 1) % 256 + 1) % 256) = cpu.SP
    rw [hSPj, hsp1, hsp2]

/-- Witness for C5 at a concrete input. -/
theorem jsr_rts_roundtrip_witness :
    cpuJsr.PC < 65536 ∧ cpuJsr.SP < 256 ∧
    (RTS (JSR cpuJsr memZero 0x2000).1 (JSR cpuJsr memZero 0x2000).2 0).1.PC = cpuJsr.PC :=
  ⟨by decide, by decide,
    (jsr_rts_roundtrip.1 cpuJsr memZero 0x2000 (by decide) (by decide)).2.2.2.2.1⟩

theorem lor_shiftLeft8_lt (l h : Nat) (hl : l < 256) (hh : h < 256) :
    l ||| (h <<< 8) < 65536 := by
  rw [lor_shiftLeft8_eq _ _ hl]
  omega

theorem resolveAM_inv (m : AddrMode) (cpu : CPUState) (memory : Mem) (h : RegInv cpu) :
    RegInv (resolveAM m cpu memory).1 ∧ (resolveAM m cpu memory).2.1.toNat < 65536 := by
  obtain ⟨hA, hX, hY, hSP, hPC⟩ := h
  cases m
  case IMM =>
    refine ⟨⟨hA, hX, hY, hSP, ?_⟩, ?_⟩ <;> simp [resolveAM] <;> omega
  case ZP =>
    refine ⟨⟨hA, hX, hY, hSP, ?_⟩, ?_⟩ <;> simp [resolveAM, fetchByte, rdByte] <;> omega
  case ZPX =>
    refine ⟨⟨hA, hX, hY, hSP, ?_⟩, ?_⟩ <;> simp [resolveAM, fetchByte, rdByte] <;> omega
  case ZPY =>
    refine ⟨⟨hA, hX, hY, hSP, ?_⟩, ?_⟩ <;> simp [resolveAM, fetchByte, rdByte] <;> omega
  case ABS =>
    refine ⟨⟨hA, hX, hY, hSP, ?_⟩, ?_⟩ <;>
      simp [resolveAM, fetchWord, fetchByte]
    · omega
    · exact shiftLeft8_lor_lt _ _ (rdByte_lt _ _) (rdByte_lt _ _)
  case ABSX =>
    refine ⟨⟨hA, hX, hY, hSP, ?_⟩, ?_⟩ <;> simp [resolveAM, fetchWord, fetchByte] <;> omega
  case ABSY =>
    refine ⟨⟨hA, hX, hY, hSP, ?_⟩, ?_⟩ <;> simp [resolveAM, fetchWord, fetchByte] <;> omega
  case IND =>
    refine ⟨⟨hA, hX, hY, hSP, ?_⟩, ?_⟩ <;> simp [resolveAM, fetchWord, fetchByte]
    · omega
    · split <;> exact lor_shiftLeft8_lt _ _ (rdByte_lt _ _) (rdByte_lt _ _)
  case IZX =>
    refine ⟨⟨hA, hX, hY, hSP, ?_⟩, ?_⟩ <;> simp [resolveAM, fetchByte]
    · omega
    · exact shiftLeft8_lor_lt _ _ (rdByte_lt _ _) (rdByte_lt _ _)
  case IZY =>
    refine ⟨⟨hA, hX, hY, hSP, ?_⟩, ?_⟩ <;> simp [resolveAM, fetchByte] <;> omega
  case REL =>
    refine ⟨⟨hA, hX, hY, hSP, ?_⟩, ?_⟩ <;> simp [resolveAM, fetchByte]
    · omega
    · have := rdByte_lt memory cpu.PC
      split <;> omega

theorem genericBranch_inv (cpu : CPUState) (memory : Mem) (addr : Int) (c : Bool)
    (h : RegInv cpu) : RegInv (genericBranch cpu memory addr c) := by
  obtain ⟨hA, hX, hY, hSP, hPC⟩ := h
  unfold genericBranch
  by_cases hc : c = true
  · simp only [hc, if_true]
    by_cases hb : 0 ≤ addr ∧ addr < 65536
    · rw [if_pos hb]
      split <;> exact ⟨hA, hX, hY, hSP, by simp; omega⟩
    · rw [if_neg hb]
      split <;> exact ⟨hA, hX, hY, hSP, by simp⟩
  · simp only [Bool.not_eq_true] at hc
    simp only [hc]
    exact ⟨hA, hX, hY, hSP, hPC⟩

theorem runExec_inv (e : ExecuteFunc) (cpu : CPUState) (memory : Mem) (address : Int)
    (h : RegInv cpu) (ha : address.toNat < 65536) :
    RegInv (runExec e cpu memory address).1 := by
  obtain ⟨hA, hX, hY, hSP, hPC⟩ := h
  cases e
  case LDA => exact ⟨rdByte_lt _ _, hX, hY, hSP, hPC⟩
  case LDX => exact ⟨hA, rdByte_lt _ _, hY, hSP, hPC⟩
  case LDY => exact ⟨hA, hX, rdByte_lt _ _, hSP, hPC⟩
  case STA => exact ⟨hA, hX, hY, hSP, hPC⟩
  case STX => exact ⟨hA, hX, hY, hSP, hPC⟩
  case STY => exact ⟨hA, hX, hY, hSP, hPC⟩
  case ADC => exact ⟨Nat.mod_lt _ (by norm_num), hX, hY, hSP, hPC⟩
  case SBC => exact ⟨Nat.mod_lt _ (by norm_num), hX, hY, hSP, hPC⟩
  case BEQ => exact genericBranch_inv cpu memory address _ ⟨hA, hX, hY, hSP, hPC⟩
  case BNE => exact genericBranch_inv cpu memory address _ ⟨hA, hX, hY, hSP, hPC⟩
  case BCS => exact genericBranch_inv cpu memory address _ ⟨hA, hX, hY, hSP, hPC⟩
  case BCC => exact genericBranch_inv cpu memory address _ ⟨hA, hX, hY, hSP, hPC⟩
  case BMI => exact genericBranch_inv cpu memory address _ ⟨hA, hX, hY, hSP, hPC⟩
  case BPL => exact genericBranch_inv cpu memory address _ ⟨hA, hX, hY, hSP, hPC⟩
  case BVS => exact genericBranch_inv cpu memory address _ ⟨hA, hX, hY, hSP, hPC⟩
  case BVC => exact genericBranch_inv cpu memory address _ ⟨hA, hX, hY, hSP, hPC⟩
  case JMP => exact ⟨hA, hX, hY, hSP, ha⟩
  case JSR => exact ⟨hA, hX, hY, mask8i_lt _, ha⟩
  case RTS => exact ⟨hA, hX, hY, Nat.mod_lt _ (by norm_num), Nat.mod_lt _ (by norm_num)⟩
  case RTI =>
    exact ⟨hA, hX, hY, Nat.mod_lt _ (by norm_num),
      shiftLeft8_lor_lt _ _ (rdByte_lt _ _) (rdByte_lt _ _)⟩
  case INC => exact ⟨hA, hX, hY, hSP, hPC⟩
  case INX => exact ⟨hA, Nat.mod_lt _ (by norm_num), hY, hSP, hPC⟩
  case INY => exact ⟨hA, hX, Nat.mod_lt _ (by norm_num), hSP, hPC⟩
  case DEC => exact ⟨hA, hX, hY, hSP, hPC⟩
  case DEX => exact ⟨hA, mask8i_lt _, hY, hSP, hPC⟩
  case DEY => exact ⟨hA, hX, mask8i_lt _, hSP, hPC⟩
  case CMP => exact ⟨hA, hX, hY, hSP, hPC⟩
  case CPX => exact ⟨hA, hX, hY, hSP, hPC⟩
  case CPY => exact ⟨hA, hX, hY, hSP, hPC⟩
  case AND => exact ⟨Nat.lt_of_le_of_lt Nat.and_le_left hA, hX, hY, hSP, hPC⟩
  case ORA => exact ⟨lor_lt_256 _ _ hA (rdByte_lt _ _), hX, hY, hSP, hPC⟩
  case EOR => exact ⟨xor_lt_256 _ _ hA (rdByte_lt _ _), hX, hY, hSP, hPC⟩
  case BIT => exact ⟨hA, hX, hY, hSP, hPC⟩
  case ASL_A => exact ⟨Nat.mod_lt _ (by norm_num), hX, hY, hSP, hPC⟩
  case ASL_M => exact ⟨hA, hX, hY, hSP, hPC⟩
  case LSR_A =>
    refine ⟨?_, hX, hY, hSP, hPC⟩
    show cpu.A >>> 1 < 256
    rw [Nat.shiftRight_eq_div_pow]
    omega
  case LSR_M => exact ⟨hA, hX, hY, hSP, hPC⟩
  case ROL_A => exact ⟨Nat.mod_lt _ (by norm_num), hX, hY, hSP, hPC⟩
  case ROL_M => exact ⟨hA, hX, hY, hSP, hPC⟩
  case ROR_A =>
    refine ⟨?_, hX, hY, hSP, hPC⟩
    show cpu.A >>> 1 ||| (if flagOn cpu.P Flag.C then 0x80 else 0) < 256
    refine lor_lt_256 _ _ ?_ (by split <;> norm_num)
    rw [Nat.shiftRight_eq_div_pow]
    omega
  case ROR_M => exact ⟨hA, hX, hY, hSP, hPC⟩
  case PHA => exact ⟨hA, hX, hY, mask8i_lt _, hPC⟩
  case PHP => exact ⟨hA, hX, hY, mask8i_lt _, hPC⟩
  case PLA => exact ⟨rdByte_lt _ _, hX, hY, Nat.mod_lt _ (by norm_num), hPC⟩
  case PLP => exact ⟨hA, hX, hY, Nat.mod_lt _ (by norm_num), hPC⟩
  case TAX => exact ⟨hA, hA, hY, hSP, hPC⟩
  case TXA => exact ⟨hX, hX, hY, hSP, hPC⟩
  case TAY => exact ⟨hA, hX, hA, hSP, hPC⟩
  case TYA => exact ⟨hY, hX, hY, hSP, hPC⟩
  case TSX => exact ⟨hA, hSP, hY, hSP, hPC⟩
  case TXS => exact ⟨hA, hX, hY, hX, hPC⟩
  case CLC => exact ⟨hA, hX, hY, hSP, hPC⟩
  case SEC => exact ⟨hA, hX, hY, hSP, hPC⟩
  case CLI => exact ⟨hA, hX, hY, hSP, hPC⟩
  case SEI => exact ⟨hA, hX, hY, hSP, hPC⟩
  case CLD => exact ⟨hA, hX, hY, hSP, hPC⟩
  case SED => exact ⟨hA, hX, hY, hSP, hPC⟩
  case CLV => exact ⟨hA, hX, hY, hSP, hPC⟩
  case NOP => exact ⟨hA, hX, hY, hSP, hPC⟩
  case BRK => exact ⟨hA, hX, hY, mask8i_lt _, Nat.mod_lt _ (by norm_num)⟩

theorem step_inv (cpu : CPUState) (memory : Mem) (h : RegInv cpu) :
    RegInv (step cpu memory).1 := by
  obtain ⟨hA, hX, hY, hSP, hPC⟩ := h
  unfold step
  by_cases hh : cpu.halted = true
  · rw [if_pos hh]
    exact ⟨hA, hX, hY, hSP, hPC⟩
  · rw [if_neg hh]
    cases hdef : getInstructionDefinition (rdByte memory cpu.PC) with
    | none =>
        simp only [hdef]
        exact ⟨hA, hX, hY, hSP, hPC⟩
    | some idef =>
        simp only [hdef]
        have hnew : RegInv { cpu with PC := (cpu.PC + 1) % 65536 } :=
          ⟨hA, hX, hY, hSP, Nat.mod_lt _ (by norm_num)⟩
        cases ham : idef.addressingMode with
        | some m =>
            simp only [ham]
            have hr := resolveAM_inv m { cpu with PC := (cpu.PC + 1) % 65536 } memory hnew
            have he := runExec_inv idef.execute
              (resolveAM m { cpu with PC := (cpu.PC + 1) % 65536 } memory).1 memory
              (resolveAM m { cpu with PC := (cpu.PC + 1) % 65536 } memory).2.1 hr.1 hr.2
            obtain ⟨e1, e2, e3, e4, e5⟩ := he
            split <;> exact ⟨e1, e2, e3, e4, e5⟩
        | none =>
            simp only [ham]
            have he := runExec_inv idef.execute { cpu with PC := (cpu.PC + 1) % 65536 }
              memory 0 hnew (by norm_num)
            obtain ⟨e1, e2, e3, e4, e5⟩ := he
            split <;> exact ⟨e1, e2, e3, e4, e5⟩

/-- C6: the masking invariant — if A, X, Y, SP are bytes and PC is a 16-bit
value, they remain so after any number of `step` invocations; wraparound is
handled by masking, never by an error. -/
theorem masking_invariant :
    ∀ (n : Nat) (cpu : CPUState) (memory : Mem), RegInv cpu →
      RegInv (stepN n cpu memory).1 := by
  intro n
  induction n with
  | zero => intro cpu memory h; exact h
  | succ k ih =>
      intro cpu memory h
      exact ih (step cpu memory).1 (step cpu memory).2 (step_inv cpu memory h)

/-- Witness for C6: three steps from the initial state on zero memory
(executing BRK and then idling in the halted state). -/
theorem masking_invariant_witness :
    RegInv cpuRun ∧ RegInv (stepN 3 cpuRun memZero).1 :=
  ⟨by decide, masking_invariant 3 cpuRun memZero (by decide)⟩
